import Mathlib

/-!
# Verification of the file-ingestion pipeline (`file_processor.py`)

Shallow embedding of the tabular-file normalization pipeline:
encoding-fallback CSV reading, size-tiered spreadsheet loading,
header-row inference (`_find_header_row`), duplicate-column resolution
(`_handle_duplicate_columns`), tiered cleaning (`_clean_dataframe`),
the post-cleaning timeout checkpoint, and stats derivation, as implemented
by `FileProcessor.process_excel_file`.

Cells are modelled as a tagged variant {Null, Text, Number, Boolean}; a
dataframe is its list of column labels, the per-column dtypes (only the
distinction "object dtype" vs not matters: `select_dtypes(include=["object"])`),
and its rows.  External libraries (chardet, the pandas readers, fastexcel) are
modelled at their call boundary: the detected encoding, the per-encoding
outcome of `pd.read_csv`, the file size, and the sheets of the workbook are inputs
to the embedded orchestrator.  Wall-clock time is modelled by passing the
elapsed time observed at the post-cleaning checkpoint as an input.
-/

namespace FileProc

/-- A cell value: the tagged variant {Null, Text, Number, Boolean}.
`null` stands for NaN/None; `num` for int/float values (the heuristics
of the pipeline only inspect the tag, never the magnitude, so `Int` suffices). -/
inductive Cell where
  | null
  | text (s : String)
  | num (n : Int)
  | boolean (b : Bool)
deriving DecidableEq, Repr

/-- Column dtype, as far as the pipeline inspects it:
`select_dtypes(include=["object"])` only distinguishes object columns. -/
inductive Dtype where
  | object
  | nonObject
deriving DecidableEq, Repr

/-- A pandas dataframe, shallowly: column labels, per-column dtypes, rows. -/
structure DataFrame where
  colNames : List String
  colDtypes : List Dtype
  rows : List (List Cell)
deriving DecidableEq, Repr

/-- Embeds `len(df)`: the number of rows. -/
def DataFrame.nrows (df : DataFrame) : Nat := df.rows.length

/-- Embeds `len(df.columns)`: the number of column labels. -/
def DataFrame.ncols (df : DataFrame) : Nat := df.colNames.length

/-- Embeds `df.head(n)`: the first `n` rows. -/
def DataFrame.headRows (df : DataFrame) (n : Nat) : DataFrame :=
  { df with rows := df.rows.take n }

/-- Embeds `df.iloc[n:].reset_index(drop=True)`: drop the first `n` rows. -/
def DataFrame.dropRows (df : DataFrame) (n : Nat) : DataFrame :=
  { df with rows := df.rows.drop n }

/-- Embeds `pd.notna(v)` on a cell. -/
def cellNotNull : Cell → Bool
  | .null => false
  | _ => true

/-- Embeds `isinstance(v, str)`. -/
def isStringCell : Cell → Bool
  | .text _ => true
  | _ => false

/-- Embeds `isinstance(v, (int, float))`; Python `bool` is a subclass of `int`,
so boolean cells count as numeric. -/
def isNumericCell : Cell → Bool
  | .num _ => true
  | .boolean _ => true
  | _ => false

/-- Embeds `row.notna().sum()`: the non-null cell count of a row. -/
def rowNonNullCount (r : List Cell) : Nat :=
  (r.filter cellNotNull).length

/-- Embeds `sum(isinstance(v, str) for v in row if pd.notna(v))`. -/
def rowStringCount (r : List Cell) : Nat :=
  (r.filter (fun c => cellNotNull c && isStringCell c)).length

/-- Embeds `sum(isinstance(v, (int, float)) for v in row if pd.notna(v))`. -/
def rowNumericCount (r : List Cell) : Nat :=
  (r.filter (fun c => cellNotNull c && isNumericCell c)).length

/-- The scan loop of `_find_header_row`: walk the sampled rows carrying the
running `(max_non_null_count, potential_header_row)` state; skip rows with
more numeric- than string-typed cells; otherwise update the best row when the
non-null count strictly exceeds the running maximum. -/
def findHeaderRowAux : List (List Cell) → Nat → Nat → Nat → Nat
  | [], _, _, best => best
  | r :: rest, idx, maxCount, best =>
    if rowNumericCount r > rowStringCount r then
      findHeaderRowAux rest (idx + 1) maxCount best
    else if rowNonNullCount r > maxCount then
      findHeaderRowAux rest (idx + 1) (rowNonNullCount r) idx
    else
      findHeaderRowAux rest (idx + 1) maxCount best

/-- Embeds `_find_header_row`: samples the first 20 rows
(`df.head(20) if len(df) > 20 else df`), scans them with
`findHeaderRowAux` starting from `max_non_null_count = 0` and
`potential_header_row = 0`.  The Python signature is `Optional[int]`, hence
the `Option` result, but every control path returns the accumulator. -/
def findHeaderRow (df : DataFrame) : Option Nat :=
  some (findHeaderRowAux (df.rows.take 20) 0 0 0)

/-- Embeds `str(h)` on a cell: NaN prints as `"nan"`, booleans as `"True"`/`"False"`. -/
def cellToStr : Cell → String
  | .null => "nan"
  | .text s => s
  | .num n => toString n
  | .boolean b => if b then "True" else "False"

/-- Embeds Python `.lstrip(".")`: drop the leading dot characters.  Written
by structural recursion over the character list so that it reduces inside
the kernel. -/
def lstripDots (s : String) : String :=
  ⟨s.data.dropWhile (fun c => c == '.')⟩

/-- Embeds Python `.strip()`: drop whitespace characters from both ends.
Written by structural recursion over the character list so that it reduces
inside the kernel (`String.trim` of core is well-founded recursion). -/
def stripStr (s : String) : String :=
  ⟨((s.data.dropWhile Char.isWhitespace).reverse.dropWhile Char.isWhitespace).reverse⟩

/-- Embeds `[str(h).strip() for h in headers]`. -/
def trimmedHeaderStrings (headers : List Cell) : List String :=
  headers.map (fun c => stripStr (cellToStr c))

/-- Result record of `_handle_duplicate_columns`. -/
structure DedupResult where
  final_headers : List String
  duplicate_counts : List (String × Nat)
  renamed_columns : List (String × String)
deriving DecidableEq, Repr

/-- The single-pass loop of `_handle_duplicate_columns`.  State: the labels
already seen in first-occurrence order (the keys of the Python `seen` dict, which
is also the insertion order of the `counts` defaultdict), and the running
occurrence count per label (`counts`, a defaultdict(int), modelled as a
function).  Returns the produced `final_headers`, the final seen-key order,
the final counts, and the `renamed_columns` entries in production order. -/
def dedupGo : List String → Nat → List String → (String → Nat) →
    List String × List String × (String → Nat) × List (String × String)
  | [], _, seen, counts => ([], seen, counts, [])
  | h :: rest, idx, seen, counts =>
    let counts' := fun s => if s = h then counts s + 1 else counts s
    if seen.contains h then
      let newName := h ++ "_" ++ toString (counts' h)
      let res := dedupGo rest (idx + 1) seen counts'
      (newName :: res.1, res.2.1, res.2.2.1,
        (h ++ " (Col " ++ toString (idx + 1) ++ ")", newName) :: res.2.2.2)
    else
      let res := dedupGo rest (idx + 1) (seen ++ [h]) counts'
      (h :: res.1, res.2.1, res.2.2.1, res.2.2.2)

/-- Embeds `_handle_duplicate_columns`: trim every header to a string, run the
single pass, and restrict the counts to true duplicates (`count > 1`).
The Python `duplicate_counts` dict iterates in insertion order of `counts`,
which is the first-occurrence order of the labels, i.e. the `seen` order. -/
def handleDuplicateColumns (headers : List Cell) : DedupResult :=
  let hl := trimmedHeaderStrings headers
  let res := dedupGo hl 0 [] (fun _ => 0)
  { final_headers := res.1
    duplicate_counts := (res.2.1.map (fun s => (s, res.2.2.1 s))).filter (fun p => p.2 > 1)
    renamed_columns := res.2.2.2 }

/-- Indices of the object-dtype columns, in order:
`df.select_dtypes(include=["object"]).columns`. -/
def objectColIndices (dts : List Dtype) : List Nat :=
  (List.range dts.length).filter (fun j => dts.getD j .nonObject == .object)

/-- Action of one column update on one row: if the row has a cell at column
`j` and it satisfies `pred`, overwrite it with the null marker. -/
def stepRow (j : Nat) (pred : Cell → Bool) (r : List Cell) : List Cell :=
  match r[j]? with
  | some c => if pred c then r.set j .null else r
  | none => r

/-- One column update `df.loc[mask, col] = np.nan` for `mask = pred(df[col])`:
replace every cell of column `j` satisfying `pred` by the null marker. -/
def replaceMatching (rows : List (List Cell)) (j : Nat) (pred : Cell → Bool) :
    List (List Cell) :=
  rows.map (stepRow j pred)

/-- Embeds `df[col].nunique()`: number of distinct non-null values in column `j`. -/
def colNunique (rows : List (List Cell)) (j : Nat) : Nat :=
  ((rows.map (fun r => r.getD j .null)).filter (fun c => cellNotNull c)).dedup.length

/-- Matches `df[col] == ""`. -/
def isEmptyStringCell (c : Cell) : Bool := c == .text ""

/-- Matches `df[col].isin(["", "nan", "null"])`. -/
def isCommonNaCell (c : Cell) : Bool :=
  c == .text "" || c == .text "nan" || c == .text "null"

/-- Message `str(e)` raised by pandas when a boolean Series reaches `if`,
as happens in `_clean_dataframe` when a duplicated column label makes
`df[col]` a DataFrame, so `mask.any()` (10001-50000 tier) or
`pd.notna(unique_count)` (at most 10000 tier) is a Series. -/
def ambiguousTruthMsg : String :=
  "The truth value of a Series is ambiguous. Use a.empty, a.bool(), a.item(), a.any() or a.all()."

/-- Indices of every column carrying the given label, over all dtypes:
`df[label]` selects all columns whose name equals the label, yielding a
Series when the list is a singleton and a DataFrame otherwise. -/
def labelIndices (names : List String) (label : String) : List Nat :=
  (List.range names.length).filter (fun j => names.getD j "" == label)

/-- Labels of the object-dtype columns in positional order, with repeats:
`df.select_dtypes(include=["object"]).columns`. -/
def objectColLabels (names : List String) (dts : List Dtype) : List String :=
  (objectColIndices dts).map (fun j => names.getD j "")

/-- One loop iteration of the 10001-50000 tier for label `col`:
`mask = df[col] == ""` then `if mask.any(): df.loc[mask, col] = np.nan`.
When the label resolves to a single column the empty-string cells of that
column are nulled; otherwise `df[col]` is a DataFrame (or the lookup fails)
and the `if` raises the ambiguous-truth-value error. -/
def emptyStringPass (names : List String) (rows : List (List Cell))
    (col : String) : Except String (List (List Cell)) :=
  match labelIndices names col with
  | [j] => .ok (replaceMatching rows j isEmptyStringCell)
  | _ => .error ambiguousTruthMsg

/-- One loop iteration of the at-most-10000 tier for label `col`:
`unique_count = df[col].nunique()` then
`if pd.notna(unique_count) and unique_count < 20:` replace the
`""`/`"nan"`/`"null"` cells (`pd.notna` of the int returned by a Series
`nunique` is always true).  When the label is duplicated, `nunique()`
returns a Series and the `if` raises the ambiguous-truth-value error. -/
def commonNaPass (names : List String) (rows : List (List Cell))
    (col : String) : Except String (List (List Cell)) :=
  match labelIndices names col with
  | [j] =>
    .ok (if colNunique rows j < 20 then replaceMatching rows j isCommonNaCell else rows)
  | _ => .error ambiguousTruthMsg

/-- The sequential `for col in sample_cols:` loop over the inspected labels,
mutating the rows in place and propagating the first raised error. -/
def foldPass (pass : List (List Cell) → String → Except String (List (List Cell))) :
    List String → List (List Cell) → Except String (List (List Cell))
  | [], rows => .ok rows
  | col :: rest, rows =>
    match pass rows col with
    | .ok rows2 => foldPass pass rest rows2
    | .error e => .error e

/-- Embeds `_clean_dataframe`.  Always trims the column labels; then:
rows > 50000: return immediately; 10000 < rows ≤ 50000: for the first (at
most 5) object-column labels, replace empty-string cells with NaN;
rows ≤ 10000: for the first (at most 10) object-column labels whose single
column has `nunique()` below 20, replace `""`/`"nan"`/`"null"` cells with
NaN.  Columns are accessed by label (`df[col]`), so in both lower tiers a
duplicated inspected label raises the ambiguous-truth-value `ValueError`,
which the orchestrator converts into the failure payload. -/
def cleanDataframe (df : DataFrame) : Except String DataFrame :=
  let names := df.colNames.map stripStr
  if df.rows.length > 50000 then
    .ok { df with colNames := names }
  else if df.rows.length > 10000 then
    match foldPass (emptyStringPass names)
        ((objectColLabels names df.colDtypes).take 5) df.rows with
    | .ok rows2 => .ok { colNames := names, colDtypes := df.colDtypes, rows := rows2 }
    | .error e => .error e
  else
    match foldPass (commonNaPass names)
        ((objectColLabels names df.colDtypes).take 10) df.rows with
    | .ok rows2 => .ok { colNames := names, colDtypes := df.colDtypes, rows := rows2 }
    | .error e => .error e

/-- The sheet selector argument (`sheet_name`): absent, 0-based index, or name. -/
inductive SheetSelector where
  | noSelector
  | idx (n : Nat)
  | sheetName (s : String)
deriving DecidableEq, Repr

/-- Sheet selection as performed by both `fastexcel.load_sheet` and
`pd.read_excel`: an integer is an index, an absent selector defaults to
index 0, a string is looked up by name.  `none` models the lookup raising. -/
def selectSheet (sel : SheetSelector) (sheets : List (String × DataFrame)) :
    Option DataFrame :=
  match sel with
  | .noSelector => (sheets[0]?).map Prod.snd
  | .idx n => (sheets[n]?).map Prod.snd
  | .sheetName s => sheets.lookup s

/-- The encoding fallback chain tried after a `UnicodeDecodeError`. -/
def fallbackEncodings : List String := ["utf-8", "cp1252", "iso-8859-1", "latin1"]

/-- The CSV read with fallback: try the detected encoding; on decode failure,
try the fallback chain in order and keep the first success (`for`/`else`). -/
def readCsvWithFallback (readCsv : String → Option DataFrame) (detected : String) :
    Option DataFrame :=
  match readCsv detected with
  | some df => some df
  | none => (fallbackEncodings.filterMap readCsv).head?

/-- The full stats dict computed on the normal success path. -/
structure ProcessingStats where
  initial_rows : Nat
  initial_cols : Nat
  final_rows : Nat
  final_cols : Nat
  empty_rows_removed : Nat
  empty_cols_removed : Int
  duplicate_columns : List (String × Nat)
  renamed_columns : List (String × String)
  file_type : String
  encoding : Option String
  processing_time_seconds : Rat
deriving DecidableEq, Repr

/-- The uniform failure payload built by the `except` handler of the orchestrator. -/
structure FailurePayload where
  error : String
  file_path : String
  file_extension : String
  elapsed_time : Rat
deriving DecidableEq, Repr

/-- The three shapes `process_excel_file` can return: the normal
`(df, stats)` success, the extra-large-spreadsheet
`(df, {"fast_processing": True, "file_size_mb": ...})` payload, and the
`(None, {...})` failure payload. -/
inductive ProcessResult where
  | success (df : DataFrame) (stats : ProcessingStats)
  | fastSuccess (df : DataFrame) (fileSizeMb : Rat)
  | failure (p : FailurePayload)
deriving DecidableEq, Repr

/-- Message `str(e)` for the `IndexError` raised by `df.iloc[header_row]` on a frame
with too few rows. -/
def ilocOutOfBoundsMsg : String := "single positional indexer is out-of-bounds"

/-- Message `str(e)` for the `UnboundLocalError` raised at
`self._find_header_row(data_for_header)` on the CSV path: `data_for_header`
is assigned only inside the spreadsheet branch. -/
def unboundDataForHeaderMsg : String :=
  "cannot access local variable data_for_header where it is not associated with a value"

/-- Error message when no fallback encoding decodes the CSV. -/
def csvDecodeFailMsg : String := "Could not read CSV with any common encoding"

/-- Error message when the sheet lookup raises (out-of-range index or
unknown name). -/
def sheetLookupFailMsg : String := "sheet lookup failed"

/-- The header-undetected message of the `header_row is None` check. -/
def headerUndetectedMsg : String := "Could not detect header row"

/-- Combination of `df = df.iloc[header_row + 1:].reset_index(drop=True)` and
`df.columns = duplicate_stats["final_headers"]`: the data body below the
header row, carrying the deduplicated header labels as its columns. -/
def dedupedBody (df : DataFrame) (headerRow : Nat) (headers : List Cell) : DataFrame :=
  { df.dropRows (headerRow + 1) with
      colNames := (handleDuplicateColumns headers).final_headers }

/-- The body of the spreadsheet (≤ 100 MB) path of `process_excel_file` once
the sheet is materialized: take the first 50 rows as `data_for_header`, find
the header row (never `None`), read the header cells with `df.iloc[header_row]`
(raises `IndexError` past the end), drop the rows through the header, dedup
the header labels and install them as columns, clean, apply the timeout
checkpoint (truncate to 1000 rows if over budget), and assemble the stats.
On this path `file_extension == ".csv"` is false, so the `encoding` stats
field is `None`. -/
def processLoadedExcel (df : DataFrame) (path ext : String) (elapsed : Rat) :
    ProcessResult :=
  let dataForHeader := df.headRows 50
  match findHeaderRow dataForHeader with
  | none => .failure ⟨headerUndetectedMsg, path, ext, elapsed⟩
  | some headerRow =>
    match df.rows[headerRow]? with
    | none => .failure ⟨ilocOutOfBoundsMsg, path, ext, elapsed⟩
    | some headers =>
      let dupStats := handleDuplicateColumns headers
      match cleanDataframe (dedupedBody df headerRow headers) with
      | .error e => .failure ⟨e, path, ext, elapsed⟩
      | .ok cleaned =>
      let final :=
        if elapsed > 20 then
          if cleaned.nrows > 1000 then cleaned.headRows 1000 else cleaned
        else cleaned
      .success final
        { initial_rows := final.nrows + headerRow + 1
          initial_cols := final.ncols
          final_rows := final.nrows
          final_cols := final.ncols
          empty_rows_removed := (final.nrows + headerRow + 1) - final.nrows
          empty_cols_removed := (headers.length : Int) - (final.ncols : Int)
          duplicate_columns := dupStats.duplicate_counts
          renamed_columns := dupStats.renamed_columns
          file_type := lstripDots ext
          encoding := none
          processing_time_seconds := elapsed }

/-- What the external world supplies to one invocation: the chardet result,
the outcome of `pd.read_csv` at each candidate encoding (`none` models a
`UnicodeDecodeError`), the file size in MB, and the sheets of the workbook. -/
structure FileModel where
  detectedEncoding : String
  readCsv : String → Option DataFrame
  sizeMb : Rat
  sheets : List (String × DataFrame)

/-- Embeds `process_excel_file`.  Branch on the extension: the CSV path decodes (with
fallback) and then evaluates `self._find_header_row(data_for_header)` — but
`data_for_header` is assigned only in the spreadsheet branch, so a successful
decode raises `UnboundLocalError`, converted by the catch-all handler into the
failure payload.  Spreadsheets over 100 MB go through the fast path
(truncate to 50000 rows, `fast_processing` marker); otherwise the full
pipeline (`processLoadedExcel`) runs. -/
def processExcelFile (path ext : String) (sel : SheetSelector) (fm : FileModel)
    (elapsed : Rat) : ProcessResult :=
  if ext = ".csv" then
    match readCsvWithFallback fm.readCsv fm.detectedEncoding with
    | none => .failure ⟨csvDecodeFailMsg, path, ext, elapsed⟩
    | some _ => .failure ⟨unboundDataForHeaderMsg, path, ext, elapsed⟩
  else if fm.sizeMb > 100 then
    match selectSheet sel fm.sheets with
    | none => .failure ⟨sheetLookupFailMsg, path, ext, elapsed⟩
    | some df =>
      .fastSuccess (if df.nrows > 50000 then df.headRows 50000 else df) fm.sizeMb
  else
    match selectSheet sel fm.sheets with
    | none => .failure ⟨sheetLookupFailMsg, path, ext, elapsed⟩
    | some df => processLoadedExcel df path ext elapsed

/-!
## Specification-side definitions

These formulations follow the wording of the specification (not the loop
structure of the source) and are compared with the source-derived definitions above in the
refinement theorems.
-/

/-- Specification reading of the HeaderRowResolver: over the first
min(20, sample_rows) rows, discard the rows with more numeric- than
string-typed cells; among the remaining rows, the chosen row is the first one
attaining the greatest non-null cell count, provided that maximum is positive
(a running strict maximum starting at 0 never picks a zero-count row);
otherwise row 0. -/
def findHeaderRowSpec (rows : List (List Cell)) : Nat :=
  let sample := rows.take 20
  let cands := (sample.enum.filter
      (fun p => !(rowNumericCount p.2 > rowStringCount p.2))).map
      (fun p => (p.1, rowNonNullCount p.2))
  let maxCount := (cands.map Prod.snd).foldl max 0
  if maxCount = 0 then 0
  else
    match cands.find? (fun c => c.2 == maxCount) with
    | some c => c.1
    | none => 0

/-- Occurrence number of position `k` in the label list `hl`: how many of the
first `k + 1` labels equal the label at `k` (1 for a first occurrence). -/
def occurrenceNumber (hl : List String) (k : Nat) : Nat :=
  ((hl.take (k + 1)).filter (fun x => x == hl.getD k "")).length

/-- Specification reading of one deduplicated label: the `i`-th occurrence of
a label `H` stays `H` for `i = 1` and becomes `H_i` for `i ≥ 2`. -/
def renameAt (hl : List String) (k : Nat) : String :=
  if occurrenceNumber hl k = 1 then hl.getD k ""
  else hl.getD k "" ++ "_" ++ toString (occurrenceNumber hl k)

/-- Specification reading of the deduplicated header list. -/
def finalHeadersSpec (hl : List String) : List String :=
  (List.range hl.length).map (renameAt hl)

/-- The distinct labels of `l` in first-appearance order. -/
def firstOccs (l : List String) : List String :=
  l.foldl (fun acc h => if acc.contains h then acc else acc ++ [h]) []

/-- Specification reading of `duplicate_counts`: the labels whose total
occurrence count exceeds one, in first-appearance order, each mapped to its
total occurrence count. -/
def dupCountsSpec (hl : List String) : List (String × Nat) :=
  ((firstOccs hl).map (fun s => (s, hl.count s))).filter (fun p => p.2 > 1)

/-- Reading of the rename map realized by the source: one entry per occurrence
beyond the first, keyed `"{label} (Col {1-based position})"`, mapping to the
final label of that occurrence, in position order. -/
def renamedColumnsSpec (hl : List String) : List (String × String) :=
  (List.range hl.length).filterMap (fun k =>
    if 2 ≤ occurrenceNumber hl k then
      some (hl.getD k "" ++ " (Col " ++ toString (k + 1) ++ ")", renameAt hl k)
    else none)

/-- Pointwise specification of one cleaned row: the cells at the inspected
column indices `js` that match `pred` become the null marker; every other
cell is untouched. -/
def cleanRowSpec (js : List Nat) (pred : Cell → Bool) (r : List Cell) : List Cell :=
  (List.range r.length).map (fun j =>
    if js.contains j && pred (r.getD j .null) then Cell.null else r.getD j .null)

/-- Shape relation between input and output rows of the cleaning passes:
same row count, same row lengths, and every cell either untouched or
overwritten with the null marker. -/
def RowsPreserved (a b : List (List Cell)) : Prop :=
  b.length = a.length
  ∧ (∀ i, (b.getD i []).length = (a.getD i []).length)
  ∧ ∀ i j, (b.getD i []).getD j Cell.null = (a.getD i []).getD j Cell.null
      ∨ (b.getD i []).getD j Cell.null = Cell.null

/-!
## Concrete scenario inputs
-/

/-- Scenario A sample: two leading title rows (mostly numeric or blank),
a text-heavy row at index 2, then data rows. -/
def scenarioASample : DataFrame :=
  { colNames := ["c0", "c1", "c2"]
    colDtypes := [.nonObject, .nonObject, .nonObject]
    rows := [[.num 2024, .null, .null],
             [.null, .num 5, .null],
             [.text "Name", .text "Age", .text "City"],
             [.text "alice", .num 31, .text "Paris"],
             [.num 7, .num 44, .num 9]] }

/-- Scenario B header row: `["A", "B", "A", "C", "A"]`. -/
def scenarioBHeaders : List Cell :=
  [.text "A", .text "B", .text "A", .text "C", .text "A"]

/-- A header row whose literal label `A_2` collides with the name generated
for the second occurrence of `A`. -/
def collidingHeaders : List Cell := [.text "A", .text "A_2", .text "A"]

/-- A sheet carrying the colliding header row above 50001 data rows.  All
three columns mix the header text with numbers, so they load as object
dtype; the body row count (50001) puts `_clean_dataframe` in the
labels-only tier, which never touches the columns. -/
def collidingSheet : DataFrame :=
  { colNames := ["c0", "c1", "c2"]
    colDtypes := [.object, .object, .object]
    rows := collidingHeaders :: List.replicate 50001 [.num 1, .num 2, .num 3] }

/-- A one-sheet workbook holding `collidingSheet`. -/
def collidingWorkbook : FileModel :=
  { detectedEncoding := "utf-8"
    readCsv := fun _ => none
    sizeMb := 5
    sheets := [("Sheet1", collidingSheet)] }

/-- A workbook whose only sheet is completely empty. -/
def emptySheetWorkbook : FileModel :=
  { detectedEncoding := "utf-8"
    readCsv := fun _ => none
    sizeMb := 5
    sheets := [("Sheet1", { colNames := [], colDtypes := [], rows := [] })] }

/-- A CSV file model whose bytes decode under every encoding into a small
two-column table. -/
def decodableCsv : FileModel :=
  { detectedEncoding := "utf-8"
    readCsv := fun _ => some
      { colNames := ["a", "b"]
        colDtypes := [.nonObject, .nonObject]
        rows := [[.num 1, .num 2]] }
    sizeMb := 1
    sheets := [] }

/-- Candidate rows of the header scan: pairs (absolute index, non-null count)
of the rows not skipped by the numeric-majority test. -/
def headerCands : List (List Cell) → Nat → List (Nat × Nat)
  | [], _ => []
  | r :: rest, idx =>
    if rowNumericCount r > rowStringCount r then headerCands rest (idx + 1)
    else (idx, rowNonNullCount r) :: headerCands rest (idx + 1)

/-- The running strict-maximum selection, as a fold over the candidate list. -/
def foldArg (cands : List (Nat × Nat)) (mx best : Nat) : Nat × Nat :=
  cands.foldl (fun st c => if c.2 > st.1 then (c.2, c.1) else st) (mx, best)

/-- Closed form of the running strict-maximum selection: the final maximum is
the fold of `max`, and the selected index is the first candidate attaining it
(keeping the initial `best` when no candidate strictly beats `mx`). -/
def argmaxSpec (cands : List (Nat × Nat)) (mx best : Nat) : Nat × Nat :=
  let bigM := (cands.map Prod.snd).foldl max mx
  if bigM ≤ mx then (mx, best)
  else
    match cands.find? (fun c => c.2 == bigM) with
    | some c => (bigM, c.1)
    | none => (mx, best)

/-- The post-cleaning timeout checkpoint of the orchestrator: when the
elapsed time exceeds the 20-second budget and the cleaned table has more than
1000 rows, keep only the first 1000 rows. -/
def truncAfterTimeout (elapsed : Rat) (cleaned : DataFrame) : DataFrame :=
  if elapsed > 20 then
    if cleaned.nrows > 1000 then cleaned.headRows 1000 else cleaned
  else cleaned

/-- Column labels of a normal success payload, `none` otherwise. -/
def ProcessResult.successColNames : ProcessResult → Option (List String)
  | .success df _ => some df.colNames
  | _ => none

/-- A sheet of 1500 one-cell numeric rows, for exercising the timeout
truncation. -/
def bigSheet : DataFrame :=
  { colNames := ["c0"]
    colDtypes := [.nonObject]
    rows := List.replicate 1500 [Cell.num 1] }

/-- A small workbook holding `bigSheet`. -/
def bigSheetWorkbook : FileModel :=
  { detectedEncoding := "utf-8"
    readCsv := fun _ => none
    sizeMb := 5
    sheets := [("S", bigSheet)] }

/-- A two-row sheet used on the fast path. -/
def smallSheet : DataFrame :=
  { colNames := ["x"]
    colDtypes := [.nonObject]
    rows := [[.num 1], [.num 2]] }

/-- A workbook reported at 150 MB, triggering the fast path. -/
def largeFileWorkbook : FileModel :=
  { detectedEncoding := "utf-8"
    readCsv := fun _ => none
    sizeMb := 150
    sheets := [("S", smallSheet)] }

/-- A one-row frame whose two object columns share the label `A`:
`df["A"]` is a DataFrame, so the at-most-10000-row cleaning tier raises. -/
def dupObjectFrame : DataFrame :=
  { colNames := ["A", "A"]
    colDtypes := [.object, .object]
    rows := [[.text "", .text "x"]] }

/-- A 10001-row frame whose two object columns share the label `A`,
putting `_clean_dataframe` in the 10001-50000 tier, where the duplicated
label raises. -/
def dupLabelMidFrame : DataFrame :=
  { colNames := ["A", "A"]
    colDtypes := [.object, .object]
    rows := List.replicate 10001 [.text "", .text "x"] }

/-- A two-row frame with one object column holding common-NA text and
uniquely resolvable labels, exercising the at-most-10000 tier replacement. -/
def naColumnFrame : DataFrame :=
  { colNames := ["a", "b"]
    colDtypes := [.object, .nonObject]
    rows := [[.text "nan", .num 1], [.text "x", .num 2]] }

/-- The cleaned body of `bigSheet`: its single column has no object dtype,
so the at-most-10000 tier leaves the 1499 data rows untouched. -/
def bigCleanedSheet : DataFrame :=
  { colNames := ["1"]
    colDtypes := [.nonObject]
    rows := (List.replicate 1500 ([Cell.num 1] : List Cell)).drop 1 }

/-- A small well-behaved two-column workbook producing a success payload. -/
def simpleSheet : DataFrame :=
  { colNames := ["c0", "c1"]
    colDtypes := [.nonObject, .nonObject]
    rows := [[.text "Name", .text "Age"], [.num 1, .num 2]] }

/-- A one-sheet workbook holding `simpleSheet`. -/
def simpleWorkbook : FileModel :=
  { detectedEncoding := "utf-8"
    readCsv := fun _ => none
    sizeMb := 5
    sheets := [("S", simpleSheet)] }

/-!
## Lemmas: the cleaning tiers
-/

lemma stepRow_length (j : Nat) (pred : Cell → Bool) (r : List Cell) :
    (stepRow j pred r).length = r.length := by
  unfold stepRow
  split
  · split
    · exact List.length_set r j .null
    · rfl
  · rfl

lemma stepRow_getElem?_ne (j j' : Nat) (h : j ≠ j') (pred : Cell → Bool)
    (r : List Cell) : (stepRow j pred r)[j']? = r[j']? := by
  unfold stepRow
  split
  · split
    · exact List.getElem?_set_ne h
    · rfl
  · rfl

lemma stepRow_getElem?_self (j : Nat) (pred : Cell → Bool) (r : List Cell) :
    (stepRow j pred r)[j]? = r[j]?.map (fun c => if pred c then Cell.null else c) := by
  unfold stepRow
  cases hc : r[j]? with
  | none => simpa using hc
  | some c =>
    have hlt : j < r.length := by
      by_contra hge
      rw [List.getElem?_eq_none (Nat.le_of_not_lt hge)] at hc
      exact Option.noConfusion hc
    dsimp only
    by_cases hp : pred c = true
    · rw [if_pos hp, List.getElem?_set_eq_of_lt Cell.null hlt]
      simp [hp]
    · rw [if_neg hp, hc]
      simp [hp]

lemma map_range_getD (r : List Cell) :
    (List.range r.length).map (fun j => r.getD j Cell.null) = r := by
  induction r with
  | nil => simp
  | cons a t ih =>
    rw [List.length_cons, List.range_succ_eq_map, List.map_cons, List.map_map]
    have htail : ((fun j => (a :: t).getD j Cell.null) ∘ Nat.succ)
        = fun j => t.getD j Cell.null := by
      funext j
      simp [List.getD_cons_succ]
    rw [htail, ih]
    simp [List.getD_cons_zero]

lemma cleanRowSpec_nil_contains (pred : Cell → Bool) (r : List Cell) :
    cleanRowSpec [] pred r = r := by
  unfold cleanRowSpec
  simp only [List.contains, List.elem_nil, Bool.false_and, if_neg Bool.false_ne_true]
  exact map_range_getD r

lemma foldl_stepRow_eq_cleanRowSpec (js : List Nat) (pred : Cell → Bool) :
    js.Nodup → ∀ r : List Cell,
    js.foldl (fun r j => stepRow j pred r) r = cleanRowSpec js pred r := by
  induction js with
  | nil =>
    intro _ r
    rw [List.foldl_nil, cleanRowSpec_nil_contains]
  | cons j₀ rest ih =>
    intro hnd r
    have hnotmem : j₀ ∉ rest := by
      simp only [List.nodup_cons] at hnd
      exact hnd.1
    have hnd' : rest.Nodup := by
      simp only [List.nodup_cons] at hnd
      exact hnd.2
    rw [List.foldl_cons, ih hnd']
    unfold cleanRowSpec
    rw [stepRow_length]
    apply List.map_congr_left
    intro j hj
    have hjlt : j < r.length := List.mem_range.mp hj
    by_cases hje : j = j₀
    · subst hje
      have hcontains : rest.contains j = false := by
        simp only [List.contains]
        exact (Bool.not_eq_true _).mp (fun hc => hnotmem (List.elem_iff.mp hc))
      have hself : (stepRow j pred r).getD j Cell.null
          = if pred (r.getD j Cell.null) then Cell.null else r.getD j Cell.null := by
        rw [List.getD_eq_getElem?_getD, stepRow_getElem?_self,
          List.getElem?_eq_getElem hjlt]
        simp [List.getD_eq_getElem?_getD, List.getElem?_eq_getElem hjlt]
      have hconj : (j :: rest).contains j = true := by
        simp [List.contains, List.elem_cons]
      rw [hcontains, hconj, hself]
      by_cases hp : pred (r.getD j Cell.null) = true <;> simp [hp]
    · have hne : (stepRow j₀ pred r).getD j Cell.null = r.getD j Cell.null := by
        rw [List.getD_eq_getElem?_getD, stepRow_getElem?_ne j₀ j (Ne.symm hje),
          ← List.getD_eq_getElem?_getD]
      have hconj : (j₀ :: rest).contains j = rest.contains j := by
        simp [List.contains, List.elem_cons, hje]
      rw [hne, hconj]

lemma replaceMatching_foldl_eq (js : List Nat) (pred : Cell → Bool) :
    ∀ rows : List (List Cell),
    js.foldl (fun rs j => replaceMatching rs j pred) rows
      = rows.map (fun r => js.foldl (fun r j => stepRow j pred r) r) := by
  induction js with
  | nil => intro rows; simp
  | cons j rest ih =>
    intro rows
    rw [List.foldl_cons, ih (replaceMatching rows j pred)]
    unfold replaceMatching
    rw [List.map_map]
    rfl

lemma colNunique_replaceMatching_ne (rows : List (List Cell)) (j j' : Nat)
    (pred : Cell → Bool) (h : j ≠ j') :
    colNunique (replaceMatching rows j' pred) j = colNunique rows j := by
  unfold colNunique replaceMatching
  rw [List.map_map]
  have : ((fun r => r.getD j Cell.null) ∘ stepRow j' pred)
      = fun r : List Cell => r.getD j Cell.null := by
    funext r
    simp only [Function.comp_apply]
    rw [List.getD_eq_getElem?_getD, stepRow_getElem?_ne j' j (Ne.symm h),
      ← List.getD_eq_getElem?_getD]
  rw [this]

lemma foldl_guarded_eq_filter (pred : Cell → Bool) (js : List Nat) :
    js.Nodup → ∀ rows0 rs : List (List Cell),
    (∀ j ∈ js, colNunique rs j = colNunique rows0 j) →
    js.foldl (fun rs j =>
        if colNunique rs j < 20 then replaceMatching rs j pred else rs) rs
      = (js.filter (fun j => colNunique rows0 j < 20)).foldl
          (fun rs j => replaceMatching rs j pred) rs := by
  induction js with
  | nil => intro _ rows0 rs _; simp
  | cons j rest ih =>
    intro hnd rows0 rs hinv
    have hnotmem : j ∉ rest := by
      simp only [List.nodup_cons] at hnd
      exact hnd.1
    have hnd' : rest.Nodup := by
      simp only [List.nodup_cons] at hnd
      exact hnd.2
    have hj : colNunique rs j = colNunique rows0 j :=
      hinv j (List.mem_cons_self j rest)
    rw [List.foldl_cons, List.filter_cons]
    by_cases hlt : colNunique rows0 j < 20
    · rw [if_pos (show colNunique rs j < 20 by rw [hj]; exact hlt),
        if_pos (decide_eq_true hlt), List.foldl_cons]
      refine ih hnd' rows0 (replaceMatching rs j pred) ?_
      intro j' hj'
      have hne : j' ≠ j := fun he => hnotmem (he ▸ hj')
      rw [colNunique_replaceMatching_ne _ _ _ _ hne]
      exact hinv j' (List.mem_cons_of_mem j hj')
    · rw [if_neg (show ¬ colNunique rs j < 20 by rw [hj]; exact hlt),
        if_neg (fun hc => hlt (of_decide_eq_true hc))]
      exact ih hnd' rows0 rs (fun j' hj' => hinv j' (List.mem_cons_of_mem j hj'))

lemma objectColIndices_nodup (dts : List Dtype) : (objectColIndices dts).Nodup :=
  (List.nodup_range dts.length).filter _

lemma stepRow_nil (j : Nat) (pred : Cell → Bool) : stepRow j pred [] = [] := rfl

lemma getD_map_rows (rows : List (List Cell)) (f : List Cell → List Cell)
    (hf : f [] = []) (i : Nat) :
    (rows.map f).getD i [] = f (rows.getD i []) := by
  rw [List.getD_eq_getElem?_getD, List.getD_eq_getElem?_getD, List.getElem?_map]
  cases rows[i]? with
  | none => simpa using hf.symm
  | some r => rfl

lemma RowsPreserved_refl (a : List (List Cell)) : RowsPreserved a a :=
  ⟨rfl, fun _ => rfl, fun _ _ => Or.inl rfl⟩

lemma RowsPreserved_trans (a b c : List (List Cell))
    (h1 : RowsPreserved a b) (h2 : RowsPreserved b c) : RowsPreserved a c := by
  obtain ⟨hl1, hr1, hc1⟩ := h1
  obtain ⟨hl2, hr2, hc2⟩ := h2
  refine ⟨hl2.trans hl1, fun i => (hr2 i).trans (hr1 i), fun i j => ?_⟩
  rcases hc2 i j with h | h
  · rw [h]
    exact hc1 i j
  · exact Or.inr h

lemma RowsPreserved_replaceMatching (rows : List (List Cell)) (j : Nat)
    (pred : Cell → Bool) : RowsPreserved rows (replaceMatching rows j pred) := by
  refine ⟨by simp [replaceMatching], fun i => ?_, fun i k => ?_⟩
  · unfold replaceMatching
    rw [getD_map_rows _ _ (stepRow_nil j pred) i, stepRow_length]
  · unfold replaceMatching
    rw [getD_map_rows _ _ (stepRow_nil j pred) i]
    by_cases hk : k = j
    · subst hk
      rw [List.getD_eq_getElem?_getD, stepRow_getElem?_self,
        List.getD_eq_getElem?_getD (rows.getD i [])]
      cases ho : (rows.getD i [])[k]? with
      | none => exact Or.inl rfl
      | some c => by_cases hp : pred c = true <;> simp [hp]
    · rw [List.getD_eq_getElem?_getD, stepRow_getElem?_ne j k (fun he => hk he.symm),
        ← List.getD_eq_getElem?_getD]
      exact Or.inl rfl

lemma emptyStringPass_resolved (names : List String) (rows : List (List Cell))
    (col : String) (j : Nat) (h : labelIndices names col = [j]) :
    emptyStringPass names rows col = .ok (replaceMatching rows j isEmptyStringCell) := by
  unfold emptyStringPass
  rw [h]

lemma commonNaPass_resolved (names : List String) (rows : List (List Cell))
    (col : String) (j : Nat) (h : labelIndices names col = [j]) :
    commonNaPass names rows col
      = .ok (if colNunique rows j < 20 then replaceMatching rows j isCommonNaCell
          else rows) := by
  unfold commonNaPass
  rw [h]

lemma emptyStringPass_bad (names : List String) (rows : List (List Cell))
    (col : String) (h : (labelIndices names col).length ≠ 1) :
    emptyStringPass names rows col = .error ambiguousTruthMsg := by
  unfold emptyStringPass
  cases hli : labelIndices names col with
  | nil => rfl
  | cons j tail =>
    cases tail with
    | nil => exact absurd (by rw [hli]; rfl) h
    | cons k t => rfl

lemma commonNaPass_bad (names : List String) (rows : List (List Cell))
    (col : String) (h : (labelIndices names col).length ≠ 1) :
    commonNaPass names rows col = .error ambiguousTruthMsg := by
  unfold commonNaPass
  cases hli : labelIndices names col with
  | nil => rfl
  | cons j tail =>
    cases tail with
    | nil => exact absurd (by rw [hli]; rfl) h
    | cons k t => rfl

lemma emptyStringPass_error_msg (names : List String) (rows : List (List Cell))
    (col : String) (e : String) (h : emptyStringPass names rows col = .error e) :
    e = ambiguousTruthMsg := by
  unfold emptyStringPass at h
  cases hli : labelIndices names col with
  | nil =>
    rw [hli] at h
    injection h with h1
    exact h1.symm
  | cons j tail =>
    cases tail with
    | nil =>
      rw [hli] at h
      exact Except.noConfusion h
    | cons k t =>
      rw [hli] at h
      injection h with h1
      exact h1.symm

lemma commonNaPass_error_msg (names : List String) (rows : List (List Cell))
    (col : String) (e : String) (h : commonNaPass names rows col = .error e) :
    e = ambiguousTruthMsg := by
  unfold commonNaPass at h
  cases hli : labelIndices names col with
  | nil =>
    rw [hli] at h
    injection h with h1
    exact h1.symm
  | cons j tail =>
    cases tail with
    | nil =>
      rw [hli] at h
      exact Except.noConfusion h
    | cons k t =>
      rw [hli] at h
      injection h with h1
      exact h1.symm

lemma emptyStringPass_ok_shape (names : List String) (rows : List (List Cell))
    (col : String) (rows2 : List (List Cell))
    (h : emptyStringPass names rows col = .ok rows2) : RowsPreserved rows rows2 := by
  unfold emptyStringPass at h
  cases hli : labelIndices names col with
  | nil =>
    rw [hli] at h
    exact Except.noConfusion h
  | cons j tail =>
    cases tail with
    | nil =>
      rw [hli] at h
      injection h with h1
      subst h1
      exact RowsPreserved_replaceMatching rows j isEmptyStringCell
    | cons k t =>
      rw [hli] at h
      exact Except.noConfusion h

lemma commonNaPass_ok_shape (names : List String) (rows : List (List Cell))
    (col : String) (rows2 : List (List Cell))
    (h : commonNaPass names rows col = .ok rows2) : RowsPreserved rows rows2 := by
  unfold commonNaPass at h
  cases hli : labelIndices names col with
  | nil =>
    rw [hli] at h
    exact Except.noConfusion h
  | cons j tail =>
    cases tail with
    | nil =>
      rw [hli] at h
      injection h with h1
      subst h1
      by_cases hn : colNunique rows j < 20
      · rw [if_pos hn]
        exact RowsPreserved_replaceMatching rows j isCommonNaCell
      · rw [if_neg hn]
        exact RowsPreserved_refl rows
    | cons k t =>
      rw [hli] at h
      exact Except.noConfusion h

lemma foldPass_ok_shape
    (pass : List (List Cell) → String → Except String (List (List Cell)))
    (hstep : ∀ rows col rows2, pass rows col = .ok rows2 → RowsPreserved rows rows2) :
    ∀ (cols : List String) (rows rows2 : List (List Cell)),
      foldPass pass cols rows = .ok rows2 → RowsPreserved rows rows2 := by
  intro cols
  induction cols with
  | nil =>
    intro rows rows2 h
    injection h with h1
    subst h1
    exact RowsPreserved_refl rows
  | cons c rest ih =>
    intro rows rows2 h
    unfold foldPass at h
    cases hp : pass rows c with
    | ok rmid =>
      rw [hp] at h
      exact RowsPreserved_trans rows rmid rows2 (hstep rows c rmid hp) (ih rmid rows2 h)
    | error e =>
      rw [hp] at h
      exact Except.noConfusion h

lemma foldPass_error_msg
    (pass : List (List Cell) → String → Except String (List (List Cell)))
    (hmsg : ∀ rows col e, pass rows col = .error e → e = ambiguousTruthMsg) :
    ∀ (cols : List String) (rows : List (List Cell)) (e : String),
      foldPass pass cols rows = .error e → e = ambiguousTruthMsg := by
  intro cols
  induction cols with
  | nil =>
    intro rows e h
    exact Except.noConfusion h
  | cons c rest ih =>
    intro rows e h
    unfold foldPass at h
    cases hp : pass rows c with
    | ok rmid =>
      rw [hp] at h
      exact ih rmid e h
    | error e2 =>
      rw [hp] at h
      injection h with h1
      rw [← h1]
      exact hmsg rows c e2 hp

lemma foldPass_error_of_bad
    (pass : List (List Cell) → String → Except String (List (List Cell)))
    (names : List String)
    (hbad : ∀ rows col, (labelIndices names col).length ≠ 1 →
        pass rows col = .error ambiguousTruthMsg)
    (hgood : ∀ rows col, (labelIndices names col).length = 1 →
        ∃ rows2, pass rows col = .ok rows2) :
    ∀ (cols : List String) (rows : List (List Cell)),
      (∃ col ∈ cols, (labelIndices names col).length ≠ 1) →
      foldPass pass cols rows = .error ambiguousTruthMsg := by
  intro cols
  induction cols with
  | nil =>
    intro rows hex
    rcases hex with ⟨c, hc, _⟩
    exact absurd hc (List.not_mem_nil c)
  | cons c rest ih =>
    intro rows hex
    unfold foldPass
    by_cases hc : (labelIndices names c).length = 1
    · rcases hgood rows c hc with ⟨rows2, hok⟩
      rw [hok]
      refine ih rows2 ?_
      rcases hex with ⟨c2, hc2mem, hc2⟩
      rcases List.mem_cons.mp hc2mem with he | ht
      · exact absurd (by rw [he]; exact hc) hc2
      · exact ⟨c2, ht, hc2⟩
    · rw [hbad rows c hc]

lemma foldPass_resolved_empty (names : List String) :
    ∀ js : List Nat,
      (∀ j ∈ js, labelIndices names (names.getD j "") = [j]) →
      ∀ rows : List (List Cell),
      foldPass (emptyStringPass names) (js.map (fun j => names.getD j "")) rows
        = .ok (js.foldl (fun rs j => replaceMatching rs j isEmptyStringCell) rows) := by
  intro js
  induction js with
  | nil =>
    intro _ rows
    rfl
  | cons j rest ih =>
    intro H rows
    rw [List.map_cons, List.foldl_cons]
    unfold foldPass
    rw [emptyStringPass_resolved names rows (names.getD j "") j
      (H j (List.mem_cons_self j rest))]
    exact ih (fun j2 hj2 => H j2 (List.mem_cons_of_mem j hj2))
      (replaceMatching rows j isEmptyStringCell)

lemma foldPass_resolved_common (names : List String) :
    ∀ js : List Nat,
      (∀ j ∈ js, labelIndices names (names.getD j "") = [j]) →
      ∀ rows : List (List Cell),
      foldPass (commonNaPass names) (js.map (fun j => names.getD j "")) rows
        = .ok (js.foldl (fun rs j =>
            if colNunique rs j < 20 then replaceMatching rs j isCommonNaCell else rs)
          rows) := by
  intro js
  induction js with
  | nil =>
    intro _ rows
    rfl
  | cons j rest ih =>
    intro H rows
    rw [List.map_cons, List.foldl_cons]
    unfold foldPass
    rw [commonNaPass_resolved names rows (names.getD j "") j
      (H j (List.mem_cons_self j rest))]
    exact ih (fun j2 hj2 => H j2 (List.mem_cons_of_mem j hj2))
      (if colNunique rows j < 20 then replaceMatching rows j isCommonNaCell else rows)

lemma objectColLabels_take_map (names : List String) (dts : List Dtype) (n : Nat) :
    (objectColLabels names dts).take n
      = ((objectColIndices dts).take n).map (fun j => names.getD j "") := by
  unfold objectColLabels
  exact (List.map_take _ _ _).symm

/-- Tier 1 of `_clean_dataframe` (> 50000 rows): only the labels are trimmed. -/
lemma cleanDataframe_tier1 (df : DataFrame) (h50 : df.rows.length > 50000) :
    cleanDataframe df = .ok { df with colNames := df.colNames.map stripStr } := by
  unfold cleanDataframe
  dsimp only
  rw [if_pos h50]

/-- Tier 2 of `_clean_dataframe` (10001-50000 rows), when every inspected
label resolves to its own single column: the first at most 5 object columns
have their empty-string cells nulled. -/
lemma cleanDataframe_tier2 (df : DataFrame) (h50 : ¬ df.rows.length > 50000)
    (h10 : df.rows.length > 10000)
    (H : ∀ j ∈ (objectColIndices df.colDtypes).take 5,
        labelIndices (df.colNames.map stripStr)
          ((df.colNames.map stripStr).getD j "") = [j]) :
    cleanDataframe df = .ok
      { colNames := df.colNames.map stripStr
        colDtypes := df.colDtypes
        rows := df.rows.map
          (cleanRowSpec ((objectColIndices df.colDtypes).take 5) isEmptyStringCell) } := by
  have hnd : ((objectColIndices df.colDtypes).take 5).Nodup :=
    (List.take_sublist _ _).nodup (objectColIndices_nodup _)
  unfold cleanDataframe
  dsimp only
  rw [if_neg h50, if_pos h10, objectColLabels_take_map,
    foldPass_resolved_empty (df.colNames.map stripStr)
      ((objectColIndices df.colDtypes).take 5) H df.rows,
    replaceMatching_foldl_eq]
  have hrows : df.rows.map (fun r => ((objectColIndices df.colDtypes).take 5).foldl
        (fun r j => stepRow j isEmptyStringCell r) r)
      = df.rows.map (cleanRowSpec ((objectColIndices df.colDtypes).take 5)
          isEmptyStringCell) :=
    List.map_congr_left (fun r _ => foldl_stepRow_eq_cleanRowSpec _ _ hnd r)
  rw [hrows]

/-- Tier 3 of `_clean_dataframe` (at most 10000 rows), when every inspected
label resolves to its own single column: the first at most 10 object columns
with fewer than 20 distinct values have their common-NA text cells nulled. -/
lemma cleanDataframe_tier3 (df : DataFrame) (h10 : ¬ df.rows.length > 10000)
    (H : ∀ j ∈ (objectColIndices df.colDtypes).take 10,
        labelIndices (df.colNames.map stripStr)
          ((df.colNames.map stripStr).getD j "") = [j]) :
    cleanDataframe df = .ok
      { colNames := df.colNames.map stripStr
        colDtypes := df.colDtypes
        rows := df.rows.map
          (cleanRowSpec (((objectColIndices df.colDtypes).take 10).filter
            (fun j => colNunique df.rows j < 20)) isCommonNaCell) } := by
  have hnd10 : ((objectColIndices df.colDtypes).take 10).Nodup :=
    (List.take_sublist _ _).nodup (objectColIndices_nodup _)
  have hndf : (((objectColIndices df.colDtypes).take 10).filter
      (fun j => colNunique df.rows j < 20)).Nodup := hnd10.filter _
  unfold cleanDataframe
  dsimp only
  rw [if_neg (show ¬ df.rows.length > 50000 by omega), if_neg h10,
    objectColLabels_take_map,
    foldPass_resolved_common (df.colNames.map stripStr)
      ((objectColIndices df.colDtypes).take 10) H df.rows,
    foldl_guarded_eq_filter _ _ hnd10 df.rows df.rows (fun _ _ => rfl),
    replaceMatching_foldl_eq]
  have hrows : df.rows.map (fun r => (((objectColIndices df.colDtypes).take 10).filter
        (fun j => colNunique df.rows j < 20)).foldl
        (fun r j => stepRow j isCommonNaCell r) r)
      = df.rows.map (cleanRowSpec (((objectColIndices df.colDtypes).take 10).filter
          (fun j => colNunique df.rows j < 20)) isCommonNaCell) :=
    List.map_congr_left (fun r _ => foldl_stepRow_eq_cleanRowSpec _ _ hndf r)
  rw [hrows]

/-- Tier 2 of `_clean_dataframe` with a duplicated (or vanished) inspected
label: the loop raises the ambiguous-truth-value error. -/
lemma cleanDataframe_tier2_error (df : DataFrame) (h50 : ¬ df.rows.length > 50000)
    (h10 : df.rows.length > 10000)
    (hex : ∃ col ∈ (objectColLabels (df.colNames.map stripStr) df.colDtypes).take 5,
        (labelIndices (df.colNames.map stripStr) col).length ≠ 1) :
    cleanDataframe df = .error ambiguousTruthMsg := by
  unfold cleanDataframe
  dsimp only
  rw [if_neg h50, if_pos h10,
    foldPass_error_of_bad (emptyStringPass (df.colNames.map stripStr))
      (df.colNames.map stripStr)
      (fun rows col hb => emptyStringPass_bad _ rows col hb)
      (fun rows col hone => by
        rcases List.length_eq_one.mp hone with ⟨j, hj⟩
        exact ⟨replaceMatching rows j isEmptyStringCell,
          emptyStringPass_resolved _ rows col j hj⟩)
      ((objectColLabels (df.colNames.map stripStr) df.colDtypes).take 5) df.rows hex]

/-- Tier 3 of `_clean_dataframe` with a duplicated (or vanished) inspected
label: the loop raises the ambiguous-truth-value error. -/
lemma cleanDataframe_tier3_error (df : DataFrame) (h10 : ¬ df.rows.length > 10000)
    (hex : ∃ col ∈ (objectColLabels (df.colNames.map stripStr) df.colDtypes).take 10,
        (labelIndices (df.colNames.map stripStr) col).length ≠ 1) :
    cleanDataframe df = .error ambiguousTruthMsg := by
  unfold cleanDataframe
  dsimp only
  rw [if_neg (show ¬ df.rows.length > 50000 by omega), if_neg h10,
    foldPass_error_of_bad (commonNaPass (df.colNames.map stripStr))
      (df.colNames.map stripStr)
      (fun rows col hb => commonNaPass_bad _ rows col hb)
      (fun rows col hone => by
        rcases List.length_eq_one.mp hone with ⟨j, hj⟩
        exact ⟨if colNunique rows j < 20 then replaceMatching rows j isCommonNaCell
            else rows,
          commonNaPass_resolved _ rows col j hj⟩)
      ((objectColLabels (df.colNames.map stripStr) df.colDtypes).take 10) df.rows hex]

/-- Every error produced by `_clean_dataframe` carries the
ambiguous-truth-value message. -/
lemma cleanDataframe_error_msg (df : DataFrame) (e : String)
    (h : cleanDataframe df = .error e) : e = ambiguousTruthMsg := by
  unfold cleanDataframe at h
  dsimp only at h
  by_cases h50 : df.rows.length > 50000
  · rw [if_pos h50] at h
    exact Except.noConfusion h
  · rw [if_neg h50] at h
    by_cases h10 : df.rows.length > 10000
    · rw [if_pos h10] at h
      cases hf : foldPass (emptyStringPass (df.colNames.map stripStr))
          ((objectColLabels (df.colNames.map stripStr) df.colDtypes).take 5)
          df.rows with
      | ok rows2 =>
        rw [hf] at h
        exact Except.noConfusion h
      | error e2 =>
        rw [hf] at h
        injection h with h1
        rw [← h1]
        exact foldPass_error_msg (emptyStringPass (df.colNames.map stripStr))
          (fun rows col e3 hpe => emptyStringPass_error_msg _ rows col e3 hpe)
          ((objectColLabels (df.colNames.map stripStr) df.colDtypes).take 5)
          df.rows e2 hf
    · rw [if_neg h10] at h
      cases hf : foldPass (commonNaPass (df.colNames.map stripStr))
          ((objectColLabels (df.colNames.map stripStr) df.colDtypes).take 10)
          df.rows with
      | ok rows2 =>
        rw [hf] at h
        exact Except.noConfusion h
      | error e2 =>
        rw [hf] at h
        injection h with h1
        rw [← h1]
        exact foldPass_error_msg (commonNaPass (df.colNames.map stripStr))
          (fun rows col e3 hpe => commonNaPass_error_msg _ rows col e3 hpe)
          ((objectColLabels (df.colNames.map stripStr) df.colDtypes).take 10)
          df.rows e2 hf

/-- A successful `_clean_dataframe` run only trims the column labels. -/
lemma cleanDataframe_ok_colNames (df out : DataFrame)
    (h : cleanDataframe df = .ok out) : out.colNames = df.colNames.map stripStr := by
  unfold cleanDataframe at h
  dsimp only at h
  by_cases h50 : df.rows.length > 50000
  · rw [if_pos h50] at h
    injection h with h1
    rw [← h1]
  · rw [if_neg h50] at h
    by_cases h10 : df.rows.length > 10000
    · rw [if_pos h10] at h
      cases hf : foldPass (emptyStringPass (df.colNames.map stripStr))
          ((objectColLabels (df.colNames.map stripStr) df.colDtypes).take 5)
          df.rows with
      | ok rows2 =>
        rw [hf] at h
        injection h with h1
        rw [← h1]
      | error e2 =>
        rw [hf] at h
        exact Except.noConfusion h
    · rw [if_neg h10] at h
      cases hf : foldPass (commonNaPass (df.colNames.map stripStr))
          ((objectColLabels (df.colNames.map stripStr) df.colDtypes).take 10)
          df.rows with
      | ok rows2 =>
        rw [hf] at h
        injection h with h1
        rw [← h1]
      | error e2 =>
        rw [hf] at h
        exact Except.noConfusion h

/-- A successful `_clean_dataframe` run keeps the dtypes and preserves the
row shape, changing cells only to the null marker. -/
lemma cleanDataframe_ok_shape (df out : DataFrame)
    (h : cleanDataframe df = .ok out) :
    out.colDtypes = df.colDtypes ∧ RowsPreserved df.rows out.rows := by
  unfold cleanDataframe at h
  dsimp only at h
  by_cases h50 : df.rows.length > 50000
  · rw [if_pos h50] at h
    injection h with h1
    rw [← h1]
    exact ⟨rfl, RowsPreserved_refl df.rows⟩
  · rw [if_neg h50] at h
    by_cases h10 : df.rows.length > 10000
    · rw [if_pos h10] at h
      cases hf : foldPass (emptyStringPass (df.colNames.map stripStr))
          ((objectColLabels (df.colNames.map stripStr) df.colDtypes).take 5)
          df.rows with
      | ok rows2 =>
        rw [hf] at h
        injection h with h1
        rw [← h1]
        exact ⟨rfl, foldPass_ok_shape _
          (fun r c r2 hp => emptyStringPass_ok_shape _ r c r2 hp)
          _ df.rows rows2 hf⟩
      | error e2 =>
        rw [hf] at h
        exact Except.noConfusion h
    · rw [if_neg h10] at h
      cases hf : foldPass (commonNaPass (df.colNames.map stripStr))
          ((objectColLabels (df.colNames.map stripStr) df.colDtypes).take 10)
          df.rows with
      | ok rows2 =>
        rw [hf] at h
        injection h with h1
        rw [← h1]
        exact ⟨rfl, foldPass_ok_shape _
          (fun r c r2 hp => commonNaPass_ok_shape _ r c r2 hp)
          _ df.rows rows2 hf⟩
      | error e2 =>
        rw [hf] at h
        exact Except.noConfusion h

/-!
## Lemmas: header-row resolution
-/

lemma findHeaderRowAux_eq_foldArg (rs : List (List Cell)) :
    ∀ idx mx best,
    findHeaderRowAux rs idx mx best = (foldArg (headerCands rs idx) mx best).2 := by
  induction rs with
  | nil => intro idx mx best; rfl
  | cons r rest ih =>
    intro idx mx best
    unfold findHeaderRowAux headerCands
    by_cases hskip : rowNumericCount r > rowStringCount r
    · rw [if_pos hskip, if_pos hskip]
      exact ih _ _ _
    · rw [if_neg hskip, if_neg hskip]
      unfold foldArg
      rw [List.foldl_cons]
      dsimp only
      by_cases hgt : rowNonNullCount r > mx
      · rw [if_pos hgt, if_pos hgt]
        exact ih _ _ _
      · rw [if_neg hgt, if_neg hgt]
        exact ih _ _ _

lemma le_foldl_max (l : List Nat) : ∀ a, a ≤ l.foldl max a := by
  induction l with
  | nil => intro a; exact Nat.le_refl a
  | cons x t ih =>
    intro a
    exact Nat.le_trans (Nat.le_max_left a x) (ih (max a x))

lemma foldl_max_mem (l : List Nat) : ∀ a, a < l.foldl max a → l.foldl max a ∈ l := by
  induction l with
  | nil => intro a h; exact absurd h (Nat.lt_irrefl a)
  | cons x t ih =>
    intro a h
    rw [List.foldl_cons] at h ⊢
    by_cases hgt : max a x < t.foldl max (max a x)
    · exact List.mem_cons_of_mem x (ih _ hgt)
    · have heq : t.foldl max (max a x) = max a x :=
        Nat.le_antisymm (Nat.le_of_not_lt hgt) (le_foldl_max t _)
      rw [heq] at h ⊢
      rcases Nat.le_total a x with hax | hxa
      · rw [Nat.max_eq_right hax]
        exact List.mem_cons_self x t
      · rw [Nat.max_eq_left hxa] at h
        exact absurd h (Nat.lt_irrefl a)

lemma foldArg_eq_argmaxSpec (cands : List (Nat × Nat)) :
    ∀ mx best, foldArg cands mx best = argmaxSpec cands mx best := by
  induction cands with
  | nil => intro mx best; simp [foldArg, argmaxSpec]
  | cons c₀ rest ih =>
    intro mx best
    unfold foldArg
    rw [List.foldl_cons]
    dsimp only
    by_cases hgt : c₀.2 > mx
    · rw [if_pos hgt]
      have lhs := ih c₀.2 c₀.1
      unfold foldArg at lhs
      rw [lhs]
      unfold argmaxSpec
      rw [List.map_cons, List.foldl_cons, Nat.max_eq_right (Nat.le_of_lt hgt)]
      dsimp only
      set bigM := (rest.map Prod.snd).foldl max c₀.2 with hbigM
      have hMge : c₀.2 ≤ bigM := le_foldl_max _ _
      have hMgtmx : ¬ bigM ≤ mx := fun hle => absurd (Nat.lt_of_lt_of_le hgt hMge)
        (Nat.not_lt_of_le hle)
      rw [if_neg hMgtmx]
      by_cases hM : bigM ≤ c₀.2
      · have heq : bigM = c₀.2 := Nat.le_antisymm hM hMge
        rw [if_pos hM, List.find?_cons_of_pos _ (by simp [heq])]
        rw [heq]
      · rw [if_neg hM]
        have hattain : bigM ∈ rest.map Prod.snd :=
          foldl_max_mem _ _ (Nat.lt_of_le_of_ne hMge (fun he => hM (Nat.le_of_eq he.symm)))
        have hfind : ∃ c, rest.find? (fun c => c.2 == bigM) = some c := by
          rw [← Option.isSome_iff_exists, List.find?_isSome]
          rcases List.mem_map.mp hattain with ⟨c, hc, hceq⟩
          exact ⟨c, hc, by simp [hceq]⟩
        rcases hfind with ⟨c, hc⟩
        have hc₀ : (c₀.2 == bigM) = false := by
          simp only [beq_eq_false_iff_ne, ne_eq]
          exact fun he => hM (Nat.le_of_eq he.symm)
        rw [List.find?_cons_of_neg _ (by simp [hc₀]), hc]
    · rw [if_neg hgt]
      have lhs := ih mx best
      unfold foldArg at lhs
      rw [lhs]
      unfold argmaxSpec
      rw [List.map_cons, List.foldl_cons,
        Nat.max_eq_left (Nat.le_of_not_lt hgt)]
      dsimp only
      set bigM := (rest.map Prod.snd).foldl max mx with hbigM
      by_cases hM : bigM ≤ mx
      · rw [if_pos hM, if_pos hM]
      · rw [if_neg hM, if_neg hM]
        have hc₀ : (c₀.2 == bigM) = false := by
          simp only [beq_eq_false_iff_ne, ne_eq]
          intro he
          exact hM (he ▸ Nat.le_of_not_lt hgt)
        rw [List.find?_cons_of_neg _ (by simp [hc₀])]

lemma headerCands_eq (rs : List (List Cell)) :
    ∀ idx, headerCands rs idx
      = ((rs.enumFrom idx).filter
          (fun p => !(rowNumericCount p.2 > rowStringCount p.2))).map
          (fun p => (p.1, rowNonNullCount p.2)) := by
  induction rs with
  | nil => intro idx; rfl
  | cons r rest ih =>
    intro idx
    rw [List.enumFrom_cons, List.filter_cons]
    unfold headerCands
    by_cases hskip : rowNumericCount r > rowStringCount r
    · rw [if_pos hskip, if_neg (by simp [hskip])]
      exact ih _
    · rw [if_neg hskip, if_pos (by simp [hskip]), List.map_cons]
      rw [ih _]

/-- Refinement of `_find_header_row`: the scan returns exactly the
argmax-with-first-tie-winner selection of the specification. -/
lemma findHeaderRow_eq_spec (df : DataFrame) :
    findHeaderRow df = some (findHeaderRowSpec df.rows) := by
  unfold findHeaderRow findHeaderRowSpec
  rw [findHeaderRowAux_eq_foldArg, foldArg_eq_argmaxSpec]
  have henum : List.enum (df.rows.take 20) = List.enumFrom 0 (df.rows.take 20) := rfl
  rw [headerCands_eq _ 0, ← henum]
  unfold argmaxSpec
  dsimp only
  congr 1
  set cands := ((df.rows.take 20).enum.filter
      (fun p => !(rowNumericCount p.2 > rowStringCount p.2))).map
      (fun p => (p.1, rowNonNullCount p.2)) with hcands
  set bigM := (cands.map Prod.snd).foldl max 0 with hM
  by_cases h0 : bigM ≤ 0
  · rw [if_pos h0, if_pos (Nat.le_zero.mp h0)]
  · rw [if_neg h0, if_neg (fun he => h0 (Nat.le_of_eq he))]
    cases hfind : cands.find? (fun c => c.2 == bigM) with
    | none => rfl
    | some c => rfl

/-!
## Lemmas: duplicate-column resolution
-/

lemma contains_eq_true_iff {α : Type} [BEq α] [LawfulBEq α] (l : List α) (a : α) :
    l.contains a = true ↔ a ∈ l := List.elem_iff

lemma mem_firstOccs_fold (l : List String) :
    ∀ acc s, s ∈ l.foldl (fun acc h => if acc.contains h then acc else acc ++ [h]) acc ↔
      s ∈ acc ∨ s ∈ l := by
  induction l with
  | nil => intro acc s; simp
  | cons x t ih =>
    intro acc s
    rw [List.foldl_cons]
    by_cases hx : acc.contains x = true
    · rw [if_pos hx, ih]
      have hmem : x ∈ acc := (contains_eq_true_iff acc x).mp hx
      constructor
      · rintro (h | h)
        · exact Or.inl h
        · exact Or.inr (List.mem_cons_of_mem _ h)
      · rintro (h | h)
        · exact Or.inl h
        · rcases List.mem_cons.mp h with he | ht
          · exact Or.inl (he ▸ hmem)
          · exact Or.inr ht
    · rw [if_neg hx, ih]
      simp only [List.mem_append, List.mem_singleton, List.mem_cons]
      tauto

lemma firstOccs_append_one (pre : List String) (h : String) :
    firstOccs (pre ++ [h]) =
      if (firstOccs pre).contains h then firstOccs pre else firstOccs pre ++ [h] := by
  unfold firstOccs
  rw [List.foldl_append]
  rfl

lemma mem_firstOccs (l : List String) (s : String) : s ∈ firstOccs l ↔ s ∈ l := by
  unfold firstOccs
  rw [mem_firstOccs_fold]
  simp

lemma firstOccs_contains_iff (pre : List String) (h : String) :
    (firstOccs pre).contains h = true ↔ h ∈ pre := by
  rw [contains_eq_true_iff, mem_firstOccs]

lemma count_append_singleton (pre : List String) (h : String) :
    (fun s => if s = h then pre.count s + 1 else pre.count s)
      = fun s => (pre ++ [h]).count s := by
  funext s
  rw [List.count_append]
  by_cases he : s = h
  · rw [if_pos he, he]
    simp [List.count_cons]
  · rw [if_neg he]
    simp [List.count_cons, he]

lemma take_append_cons (pre : List String) (h : String) (rest : List String) :
    (pre ++ h :: rest).take (pre.length + 1) = pre ++ [h] := by
  induction pre with
  | nil => simp
  | cons a t ih => simp [List.take_succ_cons, ih]

lemma getD_append_cons (pre : List String) (h : String) (rest : List String) :
    (pre ++ h :: rest).getD pre.length "" = h := by
  rw [List.getD_eq_getElem?_getD, List.getElem?_append_right (Nat.le_refl _)]
  simp

lemma occurrenceNumber_boundary (pre : List String) (h : String) (rest : List String) :
    occurrenceNumber (pre ++ h :: rest) pre.length = pre.count h + 1 := by
  unfold occurrenceNumber
  rw [take_append_cons, getD_append_cons, ← List.countP_eq_length_filter]
  have hcp : List.countP (fun x => x == h) (pre ++ [h]) = (pre ++ [h]).count h := rfl
  rw [hcp, List.count_append]
  simp [List.count_cons]

lemma dedupGo_spec (rest : List String) :
    ∀ pre : List String,
    dedupGo rest pre.length (firstOccs pre) (fun s => pre.count s)
      = ((List.range rest.length).map (fun k => renameAt (pre ++ rest) (pre.length + k)),
         firstOccs (pre ++ rest),
         (fun s => (pre ++ rest).count s),
         (List.range rest.length).filterMap (fun k =>
           if 2 ≤ occurrenceNumber (pre ++ rest) (pre.length + k) then
             some ((pre ++ rest).getD (pre.length + k) "" ++ " (Col "
                 ++ toString (pre.length + k + 1) ++ ")",
               renameAt (pre ++ rest) (pre.length + k))
           else none)) := by
  induction rest with
  | nil =>
    intro pre
    simp [dedupGo]
  | cons h rest ih =>
    intro pre
    unfold dedupGo
    dsimp only
    rw [count_append_singleton pre h]
    have hassoc : (pre ++ [h]) ++ rest = pre ++ h :: rest := by simp
    have hlen : (pre ++ [h]).length = pre.length + 1 := by simp
    have hocc : occurrenceNumber (pre ++ h :: rest) (pre.length + 0)
        = pre.count h + 1 := by
      rw [Nat.add_zero]
      exact occurrenceNumber_boundary pre h rest
    have hgetD : (pre ++ h :: rest).getD (pre.length + 0) "" = h := by
      rw [Nat.add_zero]
      exact getD_append_cons pre h rest
    by_cases hmem : h ∈ pre
    · rw [if_pos ((firstOccs_contains_iff pre h).mpr hmem)]
      have hfo : firstOccs (pre ++ [h]) = firstOccs pre := by
        rw [firstOccs_append_one, if_pos ((firstOccs_contains_iff pre h).mpr hmem)]
      have ih' := ih (pre ++ [h])
      rw [hlen, hfo, hassoc] at ih'
      rw [ih']
      have hcount1 : 1 ≤ pre.count h := List.count_pos_iff.mpr hmem
      have hcnth : (pre ++ [h]).count h = pre.count h + 1 := by
        rw [List.count_append]
        simp [List.count_cons]
      have hrename : renameAt (pre ++ h :: rest) (pre.length + 0)
          = h ++ "_" ++ toString (pre.count h + 1) := by
        unfold renameAt
        rw [hocc, hgetD, if_neg (by omega)]
      have hif : (if h = h then List.count h pre + 1 else List.count h pre)
          = List.count h pre + 1 := if_pos rfl
      rw [hif]
      dsimp only
      simp only [List.length_cons, Prod.mk.injEq]
      refine ⟨?_, trivial, trivial, ?_⟩
      · rw [List.range_succ_eq_map, List.map_cons, List.map_map]
        rw [hrename]
        congr 1
        apply List.map_congr_left
        intro k _
        congr 1
        omega
      · rw [List.range_succ_eq_map, List.filterMap_cons, List.filterMap_map]
        rw [if_pos (show 2 ≤ occurrenceNumber (pre ++ h :: rest) (pre.length + 0) by
          rw [hocc]; omega)]
        dsimp only
        rw [hgetD, hrename, Nat.add_zero]
        congr 1
        apply List.filterMap_congr
        intro k _
        have harith1 : pre.length + 1 + k = pre.length + (k + 1) := by omega
        rw [harith1]
        exact rfl
    · rw [if_neg (fun hc => hmem ((firstOccs_contains_iff pre h).mp hc))]
      have hfo : firstOccs (pre ++ [h]) = firstOccs pre ++ [h] := by
        rw [firstOccs_append_one,
          if_neg (fun hc => hmem ((firstOccs_contains_iff pre h).mp hc))]
      have ih' := ih (pre ++ [h])
      rw [hlen, hfo, hassoc] at ih'
      rw [ih']
      have hcount0 : pre.count h = 0 := List.count_eq_zero.mpr hmem
      have hrename : renameAt (pre ++ h :: rest) (pre.length + 0) = h := by
        unfold renameAt
        rw [hocc, hgetD, hcount0, if_pos (by omega)]
      dsimp only
      simp only [List.length_cons, Prod.mk.injEq]
      refine ⟨?_, trivial, trivial, ?_⟩
      · rw [List.range_succ_eq_map, List.map_cons, List.map_map]
        rw [hrename]
        congr 1
        apply List.map_congr_left
        intro k _
        congr 1
        omega
      · rw [List.range_succ_eq_map, List.filterMap_cons, List.filterMap_map]
        rw [if_neg (show ¬ 2 ≤ occurrenceNumber (pre ++ h :: rest) (pre.length + 0) by
          rw [hocc, hcount0]; omega)]
        apply List.filterMap_congr
        intro k _
        have harith1 : pre.length + 1 + k = pre.length + (k + 1) := by omega
        rw [harith1]
        exact rfl

/-- Refinement of `_handle_duplicate_columns`: the single pass realizes the
per-position occurrence-number renaming, the first-appearance-ordered
duplicate counts, and the position-keyed rename map. -/
lemma handleDuplicateColumns_eq_spec (headers : List Cell) :
    handleDuplicateColumns headers =
      { final_headers := finalHeadersSpec (trimmedHeaderStrings headers)
        duplicate_counts := dupCountsSpec (trimmedHeaderStrings headers)
        renamed_columns := renamedColumnsSpec (trimmedHeaderStrings headers) } := by
  have h0 := dedupGo_spec (trimmedHeaderStrings headers) []
  have hcnt : (fun s => List.count s ([] : List String)) = (fun _ : String => 0) := by
    funext s
    simp
  rw [List.length_nil] at h0
  rw [show firstOccs ([] : List String) = [] from rfl, hcnt] at h0
  unfold handleDuplicateColumns
  dsimp only
  rw [h0]
  unfold finalHeadersSpec dupCountsSpec renamedColumnsSpec
  simp only [List.nil_append, Nat.zero_add]

lemma mem_dupCountsSpec (hl : List String) (s : String) (c : Nat) :
    (s, c) ∈ dupCountsSpec hl ↔ hl.count s = c ∧ 1 < c := by
  unfold dupCountsSpec
  rw [List.mem_filter]
  constructor
  · rintro ⟨hmem, hgt⟩
    rcases List.mem_map.mp hmem with ⟨a, hafo, heq⟩
    injection heq with h1 h2
    subst h1
    subst h2
    exact ⟨rfl, by simpa using hgt⟩
  · rintro ⟨hcount, hgt⟩
    have hmem : s ∈ hl := List.count_pos_iff.mp (by omega)
    refine ⟨List.mem_map.mpr ⟨s, (mem_firstOccs hl s).mpr hmem, by rw [hcount]⟩, ?_⟩
    simpa using hgt

/-!
## Lemmas: frame preservation and the orchestrator
-/

lemma finalHeaders_length (headers : List Cell) :
    (handleDuplicateColumns headers).final_headers.length = headers.length := by
  rw [handleDuplicateColumns_eq_spec]
  unfold finalHeadersSpec trimmedHeaderStrings
  simp

lemma truncAfterTimeout_colNames (e : Rat) (d : DataFrame) :
    (truncAfterTimeout e d).colNames = d.colNames := by
  unfold truncAfterTimeout
  split_ifs <;> rfl

lemma processLoadedExcel_iloc_failure (df : DataFrame) (path ext : String)
    (elapsed : Rat) (h : Nat)
    (hfind : findHeaderRow (df.headRows 50) = some h)
    (hrow : df.rows[h]? = none) :
    processLoadedExcel df path ext elapsed
      = .failure ⟨ilocOutOfBoundsMsg, path, ext, elapsed⟩ := by
  unfold processLoadedExcel
  dsimp only
  rw [hfind]
  dsimp only
  rw [hrow]

/-- When `_clean_dataframe` raises, the catch-all handler converts the
invocation into the failure payload carrying the raised message. -/
lemma processLoadedExcel_clean_error (df : DataFrame) (path ext : String)
    (elapsed : Rat) (h : Nat) (headers : List Cell) (e : String)
    (hfind : findHeaderRow (df.headRows 50) = some h)
    (hrow : df.rows[h]? = some headers)
    (hclean : cleanDataframe (dedupedBody df h headers) = .error e) :
    processLoadedExcel df path ext elapsed
      = .failure ⟨e, path, ext, elapsed⟩ := by
  unfold processLoadedExcel
  dsimp only
  rw [hfind]
  dsimp only
  rw [hrow]
  dsimp only
  rw [hclean]

/-- Evaluation of the spreadsheet pipeline body once the header row exists
and the cleaning step returns: the returned table is the
timeout-checkpointed cleaned body, and the stats record is assembled from
its dimensions. -/
lemma processLoadedExcel_some (df : DataFrame) (path ext : String)
    (elapsed : Rat) (h : Nat) (headers : List Cell) (cleaned : DataFrame)
    (hfind : findHeaderRow (df.headRows 50) = some h)
    (hrow : df.rows[h]? = some headers)
    (hclean : cleanDataframe (dedupedBody df h headers) = .ok cleaned) :
    processLoadedExcel df path ext elapsed =
      ProcessResult.success (truncAfterTimeout elapsed cleaned)
        { initial_rows := (truncAfterTimeout elapsed cleaned).nrows + h + 1
          initial_cols := (truncAfterTimeout elapsed cleaned).ncols
          final_rows := (truncAfterTimeout elapsed cleaned).nrows
          final_cols := (truncAfterTimeout elapsed cleaned).ncols
          empty_rows_removed :=
            ((truncAfterTimeout elapsed cleaned).nrows + h + 1)
            - (truncAfterTimeout elapsed cleaned).nrows
          empty_cols_removed :=
            (headers.length : Int)
            - ((truncAfterTimeout elapsed cleaned).ncols : Int)
          duplicate_columns := (handleDuplicateColumns headers).duplicate_counts
          renamed_columns := (handleDuplicateColumns headers).renamed_columns
          file_type := lstripDots ext
          encoding := none
          processing_time_seconds := elapsed } := by
  unfold processLoadedExcel
  dsimp only
  rw [hfind]
  dsimp only
  rw [hrow]
  dsimp only
  rw [hclean]
  rfl

lemma processExcelFile_success_inv (path ext : String) (sel : SheetSelector)
    (fm : FileModel) (elapsed : Rat) (out : DataFrame) (stats : ProcessingStats)
    (hsucc : processExcelFile path ext sel fm elapsed = .success out stats) :
    ∃ df h headers cleaned, selectSheet sel fm.sheets = some df
      ∧ findHeaderRow (df.headRows 50) = some h
      ∧ df.rows[h]? = some headers
      ∧ cleanDataframe (dedupedBody df h headers) = .ok cleaned
      ∧ processLoadedExcel df path ext elapsed = .success out stats := by
  unfold processExcelFile at hsucc
  by_cases hcsv : ext = ".csv"
  · rw [if_pos hcsv] at hsucc
    cases hread : readCsvWithFallback fm.readCsv fm.detectedEncoding <;>
      rw [hread] at hsucc <;> exact ProcessResult.noConfusion hsucc
  · rw [if_neg hcsv] at hsucc
    by_cases hsize : fm.sizeMb > 100
    · rw [if_pos hsize] at hsucc
      cases hsel : selectSheet sel fm.sheets <;> rw [hsel] at hsucc <;>
        exact ProcessResult.noConfusion hsucc
    · rw [if_neg hsize] at hsucc
      cases hsel : selectSheet sel fm.sheets with
      | none =>
        rw [hsel] at hsucc
        exact ProcessResult.noConfusion hsucc
      | some df =>
        rw [hsel] at hsucc
        dsimp only at hsucc
        obtain ⟨h, hfind⟩ : ∃ h, findHeaderRow (df.headRows 50) = some h := ⟨_, rfl⟩
        cases hrow : df.rows[h]? with
        | none =>
          rw [processLoadedExcel_iloc_failure df path ext elapsed h hfind hrow] at hsucc
          exact ProcessResult.noConfusion hsucc
        | some headers =>
          cases hclean : cleanDataframe (dedupedBody df h headers) with
          | error e =>
            rw [processLoadedExcel_clean_error df path ext elapsed h headers e
              hfind hrow hclean] at hsucc
            exact ProcessResult.noConfusion hsucc
          | ok cleaned =>
            exact ⟨df, h, headers, cleaned, rfl, hfind, hrow, hclean, hsucc⟩

/-- Cleaning the deduplicated body of `bigSheet` returns the 1499-row body
unchanged, with its single trimmed label: the at-most-10000 tier inspects
no object column. -/
lemma cleanDataframe_bigCleaned :
    cleanDataframe (dedupedBody bigSheet 0 [Cell.num 1]) = .ok bigCleanedSheet := by
  have hlen : (dedupedBody bigSheet 0 [Cell.num 1]).rows.length = 1499 := by
    show ((List.replicate 1500 ([Cell.num 1] : List Cell)).drop 1).length = 1499
    rw [List.length_drop, List.length_replicate]
  unfold cleanDataframe
  dsimp only
  rw [if_neg (show ¬ (dedupedBody bigSheet 0 [Cell.num 1]).rows.length > 50000
      by omega),
    if_neg (show ¬ (dedupedBody bigSheet 0 [Cell.num 1]).rows.length > 10000
      by omega)]
  rfl

/-!
## Claim theorems
-/

/-- Claim C1: the claim states that every CSV whose bytes decode (under the
detected or a fallback encoding) runs the full pipeline and returns the
success payload.  In the source, `data_for_header` is assigned only inside
the spreadsheet branch, so after a successful decode the CSV path raises
`UnboundLocalError` at `self._find_header_row(data_for_header)` and the
catch-all handler converts every decodable CSV invocation into the failure
payload. -/
theorem csv_decodable_always_failure (path : String) (sel : SheetSelector)
    (fm : FileModel) (elapsed : Rat) (df : DataFrame)
    (hdec : readCsvWithFallback fm.readCsv fm.detectedEncoding = some df) :
    processExcelFile path ".csv" sel fm elapsed
      = .failure ⟨unboundDataForHeaderMsg, path, ".csv", elapsed⟩ := by
  unfold processExcelFile
  rw [if_pos rfl, hdec]

/-- Witness for C1 at a concrete decodable CSV input. -/
theorem csv_decodable_always_failure_witness :
    processExcelFile "upload.csv" ".csv" SheetSelector.noSelector decodableCsv 3
      = .failure ⟨unboundDataForHeaderMsg, "upload.csv", ".csv", 3⟩ :=
  csv_decodable_always_failure "upload.csv" SheetSelector.noSelector decodableCsv 3
    { colNames := ["a", "b"]
      colDtypes := [.nonObject, .nonObject]
      rows := [[.num 1, .num 2]] } rfl

set_option maxRecDepth 100000 in
/-- Claim C2: the claim states that every success payload has pairwise
distinct column labels, including header rows that contain a literal label
such as `A_2`.  Evaluating the code on a sheet with header row
`["A", "A_2", "A"]` above 50001 data rows (so the labels-only cleaning tier
runs and nothing raises) shows the generated name for the second occurrence
of `A` collides with the pre-existing literal `A_2`: the success payload
carries the duplicated labels `["A", "A_2", "A_2"]`. -/
theorem duplicate_labels_escape_dedup :
    (handleDuplicateColumns collidingHeaders).final_headers = ["A", "A_2", "A_2"]
    ∧ (processExcelFile "book.xlsx" ".xlsx" SheetSelector.noSelector
        collidingWorkbook 3).successColNames = some ["A", "A_2", "A_2"]
    ∧ ¬ (["A", "A_2", "A_2"] : List String).Nodup := by
  refine ⟨rfl, ?_, by decide⟩
  have hfind : findHeaderRow (collidingSheet.headRows 50) = some 0 := rfl
  have hrow : collidingSheet.rows[0]? = some collidingHeaders := by
    show (collidingHeaders
      :: List.replicate 50001 [Cell.num 1, Cell.num 2, Cell.num 3])[0]?
      = some collidingHeaders
    exact List.getElem?_cons_zero
  have hlen : (dedupedBody collidingSheet 0 collidingHeaders).rows.length = 50001 := by
    show (List.replicate 50001
      ([Cell.num 1, Cell.num 2, Cell.num 3] : List Cell)).length = 50001
    rw [List.length_replicate]
  have hclean : cleanDataframe (dedupedBody collidingSheet 0 collidingHeaders)
      = .ok { dedupedBody collidingSheet 0 collidingHeaders with
          colNames :=
            (dedupedBody collidingSheet 0 collidingHeaders).colNames.map stripStr } :=
    cleanDataframe_tier1 _ (by omega)
  have hsz : ¬ collidingWorkbook.sizeMb > 100 := show ¬ (5 : Rat) > 100 by norm_num
  have hred : processExcelFile "book.xlsx" ".xlsx" SheetSelector.noSelector
      collidingWorkbook 3
      = processLoadedExcel collidingSheet "book.xlsx" ".xlsx" 3 := by
    unfold processExcelFile
    rw [if_neg (show (".xlsx" : String) ≠ ".csv" by decide), if_neg hsz]
    rfl
  rw [hred, processLoadedExcel_some collidingSheet "book.xlsx" ".xlsx" 3 0
    collidingHeaders _ hfind hrow hclean]
  simp only [ProcessResult.successColNames]
  rw [truncAfterTimeout_colNames]
  rfl

/-- Counterexample for claim C3: on an empty sample, `_find_header_row` still
returns index 0 (never `None`), so the invocation does not fail with the
header-undetected message; on an empty sheet it fails later, with the
positional-indexer message of `df.iloc`. -/
theorem empty_sample_without_header_error :
    findHeaderRow { colNames := [], colDtypes := [], rows := [] } = some 0
    ∧ processExcelFile "e.xlsx" ".xlsx" SheetSelector.noSelector emptySheetWorkbook 1
        = .failure ⟨ilocOutOfBoundsMsg, "e.xlsx", ".xlsx", 1⟩
    ∧ ilocOutOfBoundsMsg ≠ headerUndetectedMsg :=
  ⟨rfl, rfl, by decide⟩

/-- Claim C3, amended: the header-undetected failure is unreachable.
`_find_header_row` always resolves an index (defaulting to row 0, even on an
empty sample), so no invocation of `process_excel_file` ever returns a
failure payload carrying the header-undetected message; an empty table
instead fails later with the positional-indexer error of `df.iloc`. -/
theorem header_undetected_unreachable :
    (∀ df : DataFrame, findHeaderRow df ≠ none)
    ∧ ∀ (path ext : String) (sel : SheetSelector) (fm : FileModel) (elapsed : Rat)
        (p : FailurePayload),
        processExcelFile path ext sel fm elapsed = .failure p →
        p.error ≠ headerUndetectedMsg := by
  constructor
  · intro df hnone
    exact Option.noConfusion hnone
  · intro path ext sel fm elapsed p hp
    unfold processExcelFile at hp
    by_cases hcsv : ext = ".csv"
    · rw [if_pos hcsv] at hp
      cases hread : readCsvWithFallback fm.readCsv fm.detectedEncoding <;>
        rw [hread] at hp
      · injection hp with hpay
        subst hpay
        show csvDecodeFailMsg ≠ headerUndetectedMsg
        decide
      · injection hp with hpay
        subst hpay
        show unboundDataForHeaderMsg ≠ headerUndetectedMsg
        decide
    · rw [if_neg hcsv] at hp
      by_cases hsize : fm.sizeMb > 100
      · rw [if_pos hsize] at hp
        cases hsel : selectSheet sel fm.sheets <;> rw [hsel] at hp
        · injection hp with hpay
          subst hpay
          show sheetLookupFailMsg ≠ headerUndetectedMsg
          decide
        · exact ProcessResult.noConfusion hp
      · rw [if_neg hsize] at hp
        cases hsel : selectSheet sel fm.sheets with
        | none =>
          rw [hsel] at hp
          injection hp with hpay
          subst hpay
          show sheetLookupFailMsg ≠ headerUndetectedMsg
          decide
        | some df =>
          rw [hsel] at hp
          dsimp only at hp
          obtain ⟨h, hfind⟩ : ∃ h, findHeaderRow (df.headRows 50) = some h := ⟨_, rfl⟩
          cases hrow : df.rows[h]? with
          | none =>
            rw [processLoadedExcel_iloc_failure df path ext elapsed h hfind hrow] at hp
            injection hp with hpay
            subst hpay
            show ilocOutOfBoundsMsg ≠ headerUndetectedMsg
            decide
          | some headers =>
            cases hclean : cleanDataframe (dedupedBody df h headers) with
            | error e =>
              rw [processLoadedExcel_clean_error df path ext elapsed h headers e
                hfind hrow hclean] at hp
              injection hp with hpay
              subst hpay
              show e ≠ headerUndetectedMsg
              rw [cleanDataframe_error_msg _ e hclean]
              decide
            | ok cleaned =>
              rw [processLoadedExcel_some df path ext elapsed h headers cleaned
                hfind hrow hclean] at hp
              exact ProcessResult.noConfusion hp

/-- Witness for the amended C3 at a concrete failing input. -/
theorem header_undetected_unreachable_witness :
    (FailurePayload.mk ilocOutOfBoundsMsg "e.xlsx" ".xlsx" 1).error
      ≠ headerUndetectedMsg :=
  header_undetected_unreachable.2 "e.xlsx" ".xlsx" SheetSelector.noSelector
    emptySheetWorkbook 1 ⟨ilocOutOfBoundsMsg, "e.xlsx", ".xlsx", 1⟩ rfl

/-- Claim C4: at the post-cleaning checkpoint, if the elapsed time exceeds
the 20-second budget and the cleaned table has more than 1000 rows, the
invocation still succeeds with exactly the first 1000 cleaned rows,
`final_rows` reflecting the post-truncation count and
`processing_time_seconds` the elapsed time measured at the checkpoint;
otherwise no truncation occurs. -/
theorem timeout_truncation_policy (path ext : String) (sel : SheetSelector)
    (fm : FileModel) (elapsed : Rat) (df : DataFrame) (h : Nat)
    (headers : List Cell) (cleaned : DataFrame)
    (hext : ext ≠ ".csv") (hsize : ¬ fm.sizeMb > 100)
    (hsel : selectSheet sel fm.sheets = some df)
    (hfind : findHeaderRow (df.headRows 50) = some h)
    (hrow : df.rows[h]? = some headers)
    (hclean : cleanDataframe (dedupedBody df h headers) = .ok cleaned) :
    (elapsed > 20 → cleaned.nrows > 1000 →
      ∃ stats, processExcelFile path ext sel fm elapsed
          = .success (cleaned.headRows 1000) stats
        ∧ stats.final_rows = 1000
        ∧ stats.processing_time_seconds = elapsed)
    ∧ (¬ (elapsed > 20 ∧ cleaned.nrows > 1000) →
      ∃ stats, processExcelFile path ext sel fm elapsed
          = .success cleaned stats
        ∧ stats.final_rows = cleaned.nrows
        ∧ stats.processing_time_seconds = elapsed) := by
  have hred : processExcelFile path ext sel fm elapsed
      = processLoadedExcel df path ext elapsed := by
    unfold processExcelFile
    rw [if_neg hext, if_neg hsize, hsel]
  rw [hred, processLoadedExcel_some df path ext elapsed h headers cleaned
    hfind hrow hclean]
  constructor
  · intro ht hn
    have htr : truncAfterTimeout elapsed cleaned = cleaned.headRows 1000 := by
      unfold truncAfterTimeout
      rw [if_pos ht, if_pos hn]
    rw [htr]
    refine ⟨_, rfl, ?_, rfl⟩
    show (cleaned.rows.take 1000).length = 1000
    rw [List.length_take]
    exact Nat.min_eq_left (Nat.le_of_lt hn)
  · intro hnot
    have htr : truncAfterTimeout elapsed cleaned = cleaned := by
      unfold truncAfterTimeout
      by_cases ht : elapsed > 20
      · rw [if_pos ht, if_neg (fun hn => hnot ⟨ht, hn⟩)]
      · rw [if_neg ht]
    rw [htr]
    exact ⟨_, rfl, rfl, rfl⟩

set_option maxRecDepth 100000 in
/-- Witness for C4: a 1500-row sheet processed with 25 seconds elapsed is
truncated to 1000 rows. -/
theorem timeout_truncation_policy_witness :
    ∃ stats, processExcelFile "big.xlsx" ".xlsx" SheetSelector.noSelector
        bigSheetWorkbook 25
        = .success (bigCleanedSheet.headRows 1000) stats
      ∧ stats.final_rows = 1000
      ∧ stats.processing_time_seconds = 25 :=
  (timeout_truncation_policy "big.xlsx" ".xlsx" SheetSelector.noSelector
      bigSheetWorkbook 25 bigSheet 0 [Cell.num 1] bigCleanedSheet (by decide)
      (show ¬ (5 : Rat) > 100 by norm_num) rfl rfl rfl
      cleanDataframe_bigCleaned).1
    (show (25 : Rat) > 20 by norm_num)
    (by
      have hlen : bigCleanedSheet.nrows = 1499 := by
        show ((List.replicate 1500 ([Cell.num 1] : List Cell)).drop 1).length = 1499
        rw [List.length_drop, List.length_replicate]
      omega)

/-- Claim C5: a spreadsheet over 100 MB takes the fast path: the selected
sheet (index defaulting to 0 when the selector is absent) is returned
truncated to at most 50000 rows with the `fast_processing` marker payload,
a result shape distinct from the normal success payload, so header
resolution, deduplication, cleaning and the full stats are not executed. -/
theorem fast_path_large_spreadsheet (path ext : String) (sel : SheetSelector)
    (fm : FileModel) (elapsed : Rat) (df : DataFrame)
    (hext : ext ≠ ".csv") (hsize : fm.sizeMb > 100)
    (hsel : selectSheet sel fm.sheets = some df) :
    processExcelFile path ext sel fm elapsed
        = .fastSuccess (if df.nrows > 50000 then df.headRows 50000 else df) fm.sizeMb
      ∧ (if df.nrows > 50000 then df.headRows 50000 else df).nrows ≤ 50000
      ∧ selectSheet SheetSelector.noSelector fm.sheets
          = selectSheet (SheetSelector.idx 0) fm.sheets := by
  refine ⟨?_, ?_, rfl⟩
  · unfold processExcelFile
    rw [if_neg hext, if_pos hsize, hsel]
  · by_cases hn : df.nrows > 50000
    · rw [if_pos hn]
      show (df.rows.take 50000).length ≤ 50000
      rw [List.length_take]
      exact Nat.min_le_left _ _
    · rw [if_neg hn]
      omega

/-- Witness for C5 at a workbook reported at 150 MB. -/
theorem fast_path_large_spreadsheet_witness :
    processExcelFile "huge.xlsx" ".xlsx" SheetSelector.noSelector
        largeFileWorkbook 1
        = .fastSuccess
            (if smallSheet.nrows > 50000 then smallSheet.headRows 50000 else smallSheet)
            largeFileWorkbook.sizeMb
      ∧ (if smallSheet.nrows > 50000 then smallSheet.headRows 50000
          else smallSheet).nrows ≤ 50000
      ∧ selectSheet SheetSelector.noSelector largeFileWorkbook.sheets
          = selectSheet (SheetSelector.idx 0) largeFileWorkbook.sheets :=
  fast_path_large_spreadsheet "huge.xlsx" ".xlsx" SheetSelector.noSelector
    largeFileWorkbook 1 smallSheet (by decide)
    (show (100 : Rat) < 150 by norm_num) rfl

/-- Counterexample for claim C6: the tier policy is not total.  In the
at-most-10000-row tier a duplicated object-column label makes `df[col]` a
DataFrame, and `_clean_dataframe` raises the ambiguous-truth-value error
instead of cleaning. -/
theorem clean_dataframe_duplicate_label_raises :
    cleanDataframe dupObjectFrame = .error ambiguousTruthMsg
    ∧ dupObjectFrame.rows.length ≤ 10000 :=
  ⟨rfl, by decide⟩

/-- Claim C6, amended: the three-tier policy of `_clean_dataframe` holds
tier-wise, conditioned on how each inspected label resolves.  Above 50000
rows only the labels are trimmed; in the two lower tiers, when every
inspected object-column label resolves to its own single column, the tier
cleaning applies pointwise (empty-string nulling over at most 5 object
columns between 10001 and 50000 rows, common-NA nulling over at most 10
object columns with fewer than 20 distinct values at or below 10000 rows);
and in either lower tier an inspected label held by several (or no) columns
raises the ambiguous-truth-value error instead. -/
theorem clean_dataframe_three_tier :
    (∀ df : DataFrame, df.rows.length > 50000 →
      cleanDataframe df = .ok { df with colNames := df.colNames.map stripStr })
    ∧ (∀ df : DataFrame, ¬ df.rows.length > 50000 → df.rows.length > 10000 →
      (∀ j ∈ (objectColIndices df.colDtypes).take 5,
        labelIndices (df.colNames.map stripStr)
          ((df.colNames.map stripStr).getD j "") = [j]) →
      cleanDataframe df = .ok
        { colNames := df.colNames.map stripStr
          colDtypes := df.colDtypes
          rows := df.rows.map
            (cleanRowSpec ((objectColIndices df.colDtypes).take 5)
              isEmptyStringCell) })
    ∧ (∀ df : DataFrame, ¬ df.rows.length > 10000 →
      (∀ j ∈ (objectColIndices df.colDtypes).take 10,
        labelIndices (df.colNames.map stripStr)
          ((df.colNames.map stripStr).getD j "") = [j]) →
      cleanDataframe df = .ok
        { colNames := df.colNames.map stripStr
          colDtypes := df.colDtypes
          rows := df.rows.map
            (cleanRowSpec (((objectColIndices df.colDtypes).take 10).filter
              (fun j => colNunique df.rows j < 20)) isCommonNaCell) })
    ∧ (∀ df : DataFrame, ¬ df.rows.length > 50000 → df.rows.length > 10000 →
      (∃ col ∈ (objectColLabels (df.colNames.map stripStr) df.colDtypes).take 5,
        (labelIndices (df.colNames.map stripStr) col).length ≠ 1) →
      cleanDataframe df = .error ambiguousTruthMsg)
    ∧ (∀ df : DataFrame, ¬ df.rows.length > 10000 →
      (∃ col ∈ (objectColLabels (df.colNames.map stripStr) df.colDtypes).take 10,
        (labelIndices (df.colNames.map stripStr) col).length ≠ 1) →
      cleanDataframe df = .error ambiguousTruthMsg) :=
  ⟨fun df h50 => cleanDataframe_tier1 df h50,
   fun df h50 h10 H => cleanDataframe_tier2 df h50 h10 H,
   fun df h10 H => cleanDataframe_tier3 df h10 H,
   fun df h50 h10 hex => cleanDataframe_tier2_error df h50 h10 hex,
   fun df h10 hex => cleanDataframe_tier3_error df h10 hex⟩

/-- Witness for the amended C6: the at-most-10000 tier at a concrete frame
with a resolvable object-column label holding common-NA text. -/
theorem clean_dataframe_three_tier_witness :
    cleanDataframe naColumnFrame = .ok
      { colNames := naColumnFrame.colNames.map stripStr
        colDtypes := naColumnFrame.colDtypes
        rows := naColumnFrame.rows.map
          (cleanRowSpec (((objectColIndices naColumnFrame.colDtypes).take 10).filter
            (fun j => colNunique naColumnFrame.rows j < 20)) isCommonNaCell) } :=
  clean_dataframe_three_tier.2.2.1 naColumnFrame (by decide) (by decide)

/-- Claim C7: `_find_header_row` skips rows with more numeric- than
string-typed cells over the first min(20, sample) rows, returns the first
row attaining the strictly greatest non-null count, and defaults to row 0;
on the scenario sample (two mostly-numeric leading rows, text-heavy row at
index 2) it returns 2. -/
theorem find_header_row_resolution :
    (∀ df : DataFrame, findHeaderRow df = some (findHeaderRowSpec df.rows))
    ∧ findHeaderRow scenarioASample = some 2 :=
  ⟨findHeaderRow_eq_spec, rfl⟩

/-- Claim C8: the deduplicator renames the i-th occurrence of a trimmed
label H to H_i (keeping the first occurrence), and `duplicate_counts`
contains exactly the labels with total occurrence count above 1, mapped to
that count; the scenario header produces the expected record. -/
theorem dedup_occurrence_renaming :
    (∀ headers : List Cell,
      (handleDuplicateColumns headers).final_headers
          = finalHeadersSpec (trimmedHeaderStrings headers)
      ∧ ∀ s c, (s, c) ∈ (handleDuplicateColumns headers).duplicate_counts ↔
          (trimmedHeaderStrings headers).count s = c ∧ 1 < c)
    ∧ handleDuplicateColumns scenarioBHeaders
        = { final_headers := ["A", "B", "A_2", "C", "A_3"]
            duplicate_counts := [("A", 3)]
            renamed_columns := [("A (Col 3)", "A_2"), ("A (Col 5)", "A_3")] } := by
  constructor
  · intro headers
    constructor
    · rw [handleDuplicateColumns_eq_spec]
    · intro s c
      rw [handleDuplicateColumns_eq_spec]
      exact mem_dupCountsSpec _ s c
  · rfl

/-- Witness for C8 at the scenario header row. -/
theorem dedup_occurrence_renaming_witness :
    ("A", 3) ∈ (handleDuplicateColumns scenarioBHeaders).duplicate_counts ↔
      (trimmedHeaderStrings scenarioBHeaders).count "A" = 3 ∧ 1 < 3 :=
  (dedup_occurrence_renaming.1 scenarioBHeaders).2 "A" 3

/-- Counterexample for claim C9: the rename-map key format is
`"{label} (Col {1-based position})"`, not
`"{label} (position {1-based position})"` as the claim states. -/
theorem rename_map_key_uses_col_label :
    (handleDuplicateColumns [Cell.text "A", Cell.text "A"]).renamed_columns
        = [("A (Col 2)", "A_2")]
      ∧ "A (Col 2)" ≠ "A (position 2)" :=
  ⟨rfl, by decide⟩

/-- Claim C9, amended: every renamed duplicate occurrence is recorded under
the key `"{label} (Col {1-based column index})"`, mapping to its final
unique label, and only occurrences beyond the first of a label produce an
entry, as captured by `renamedColumnsSpec`. -/
theorem rename_map_characterization (headers : List Cell) :
    (handleDuplicateColumns headers).renamed_columns
      = renamedColumnsSpec (trimmedHeaderStrings headers) := by
  rw [handleDuplicateColumns_eq_spec]

/-- Counterexample for claim C10: preservation is not unconditional over the
tiers.  In the 10001-50000-row tier a duplicated inspected label raises the
ambiguous-truth-value error, so no cleaned frame is produced at all. -/
theorem clean_mid_tier_duplicate_label_raises :
    cleanDataframe dupLabelMidFrame = .error ambiguousTruthMsg
    ∧ 10000 < dupLabelMidFrame.rows.length
    ∧ dupLabelMidFrame.rows.length ≤ 50000 := by
  have hlen : dupLabelMidFrame.rows.length = 10001 := by
    show (List.replicate 10001
      ([Cell.text "", Cell.text "x"] : List Cell)).length = 10001
    rw [List.length_replicate]
  refine ⟨?_, by omega, by omega⟩
  refine cleanDataframe_tier2_error dupLabelMidFrame (by omega) (by omega) ?_
  exact ⟨"A", by decide, by decide⟩

/-- Claim C10, amended: whenever `_clean_dataframe` returns a frame it
preserves the number of rows, the number of columns, each row length, and
changes a cell only to the null marker; consequently every normal success
payload has `empty_cols_removed = 0` and
`empty_rows_removed = header_row_index + 1`. -/
theorem clean_preserves_frame_and_stats :
    (∀ df out : DataFrame, cleanDataframe df = .ok out →
      out.nrows = df.nrows
      ∧ out.ncols = df.ncols
      ∧ (∀ i, (out.rows.getD i []).length = (df.rows.getD i []).length)
      ∧ ∀ i j, (out.rows.getD i []).getD j Cell.null
            = (df.rows.getD i []).getD j Cell.null
          ∨ (out.rows.getD i []).getD j Cell.null = Cell.null)
    ∧ ∀ (path ext : String) (sel : SheetSelector) (fm : FileModel)
        (elapsed : Rat) (out : DataFrame) (stats : ProcessingStats),
        processExcelFile path ext sel fm elapsed = .success out stats →
          stats.empty_cols_removed = 0
          ∧ ∃ df h, selectSheet sel fm.sheets = some df
              ∧ findHeaderRow (df.headRows 50) = some h
              ∧ stats.empty_rows_removed = h + 1 := by
  constructor
  · intro df out hok
    obtain ⟨hdt, hpres⟩ := cleanDataframe_ok_shape df out hok
    obtain ⟨hl, hr, hc⟩ := hpres
    refine ⟨hl, ?_, hr, hc⟩
    show out.colNames.length = df.colNames.length
    rw [cleanDataframe_ok_colNames df out hok, List.length_map]
  · intro path ext sel fm elapsed out stats hsucc
    obtain ⟨df, h, headers, cleaned, hsel, hfind, hrow, hclean, heq⟩ :=
      processExcelFile_success_inv path ext sel fm elapsed out stats hsucc
    rw [processLoadedExcel_some df path ext elapsed h headers cleaned
      hfind hrow hclean] at heq
    injection heq with hout hstats
    subst hstats
    have hncols : (truncAfterTimeout elapsed cleaned).ncols = headers.length := by
      show (truncAfterTimeout elapsed cleaned).colNames.length = headers.length
      rw [truncAfterTimeout_colNames, cleanDataframe_ok_colNames _ _ hclean,
        List.length_map]
      show (handleDuplicateColumns headers).final_headers.length = headers.length
      exact finalHeaders_length headers
    constructor
    · show (headers.length : Int)
        - ((truncAfterTimeout elapsed cleaned).ncols : Int) = 0
      rw [hncols]
      omega
    · refine ⟨df, h, hsel, hfind, ?_⟩
      show ((truncAfterTimeout elapsed cleaned).nrows + h + 1)
        - (truncAfterTimeout elapsed cleaned).nrows = h + 1
      omega

/-- Witness for C10 at a concrete success payload. -/
theorem clean_preserves_frame_and_stats_witness :
    ({ initial_rows := 2, initial_cols := 2, final_rows := 1, final_cols := 2,
       empty_rows_removed := 1, empty_cols_removed := 0,
       duplicate_columns := [], renamed_columns := [],
       file_type := "xlsx", encoding := none,
       processing_time_seconds := 3 } : ProcessingStats).empty_cols_removed = 0
    ∧ ∃ df h, selectSheet SheetSelector.noSelector simpleWorkbook.sheets = some df
        ∧ findHeaderRow (df.headRows 50) = some h
        ∧ ({ initial_rows := 2, initial_cols := 2, final_rows := 1, final_cols := 2,
             empty_rows_removed := 1, empty_cols_removed := 0,
             duplicate_columns := [], renamed_columns := [],
             file_type := "xlsx", encoding := none,
             processing_time_seconds := 3 } : ProcessingStats).empty_rows_removed
          = h + 1 :=
  clean_preserves_frame_and_stats.2 "s.xlsx" ".xlsx" SheetSelector.noSelector
    simpleWorkbook 3
    { colNames := ["Name", "Age"]
      colDtypes := [.nonObject, .nonObject]
      rows := [[.num 1, .num 2]] }
    { initial_rows := 2, initial_cols := 2, final_rows := 1, final_cols := 2,
      empty_rows_removed := 1, empty_cols_removed := 0,
      duplicate_columns := [], renamed_columns := [],
      file_type := "xlsx", encoding := none,
      processing_time_seconds := 3 } rfl

end FileProc
